import Mathlib

/-!
# Failure injection and client resilience in the product-listing demo

A shallow embedding of the five source files

* `pages/api/products.js` (namespace `ProductsApi`): the Next.js Responder `handler`,
* `server.js` (namespace `Server`): the Express Responder for `/api/products`,
* `app.js` (namespace `App`): the Requester racing `fetch` against an abort timer,
* `app-github-pages.js` (namespace `GhPages`): the in-browser simulation,
* `pages/index.js` (namespace `PagesIndex`): the React Requester,

followed by the theorems that settle the claims about them.

Modelling conventions.

* JavaScript values that occur in log records and response bodies are `JVal`; an object
  literal is an association list `Obj` in source order, and reading a property that is
  not there gives `JVal.undefined`, as in JavaScript.
* `Date.now()` is the field `now` of an explicit `World`; the clock only moves when an
  awaited `setTimeout` elapses, and it then moves by exactly the timer delay.
* `new Date().toISOString()` at clock value `t` is the value `JVal.isoTime t`.
* Free-text `console.log` banner lines are not part of the model; the structured
  records that the code prints with `JSON.stringify` are.
-/

namespace FailureSim

/-! ## JavaScript values -/

/-- A product record `{id, name, category, price, stock}`. The price literals of the
source all have two decimals and are kept in hundredths; `pages/api/products.js`
products have no `category` property. -/
structure Product where
  id : Nat
  name : String
  category : Option String
  priceCents : Nat
  stock : Nat
deriving DecidableEq, Repr

/-- The JavaScript values that occur as property values in the records of the program. -/
inductive JVal where
  | undefined
  | null
  | bool (b : Bool)
  | num (n : Int)
  | str (s : String)
  | isoTime (ms : Nat)
  | products (ps : List Product)
deriving DecidableEq, Repr

/-- An object literal: its properties in source order. -/
abbrev Obj := List (String × JVal)

/-- Property read `o.key`; a missing property reads as `undefined`. -/
def Obj.get (o : Obj) (key : String) : JVal :=
  (o.lookup key).getD JVal.undefined

/-- Whether the object has an own property `key`. -/
def Obj.has (o : Obj) (key : String) : Bool :=
  (o.lookup key).isSome

/-- JavaScript truthiness (`ToBoolean`). -/
def JVal.truthy : JVal → Bool
  | JVal.undefined => false
  | JVal.null => false
  | JVal.bool b => b
  | JVal.num n => n != 0
  | JVal.str s => s != ""
  | JVal.isoTime _ => true
  | JVal.products _ => true

/-- The JavaScript operator `a || b`. -/
def JVal.orElse (a b : JVal) : JVal :=
  if a.truthy then a else b

/-- The string operator `a || b` on strings: the empty string is falsy. -/
def strOrElse (a b : String) : String :=
  if a = "" then b else a

/-! ## Substring test -/

/-- Whether the character list starts with the given characters. -/
def startsWithChars : List Char → List Char → Bool
  | _, [] => true
  | [], _ :: _ => false
  | c :: cs, p :: ps => c == p && startsWithChars cs ps

/-- Whether `sub` occurs as a contiguous run inside the character list. -/
def containsChars : List Char → List Char → Bool
  | [], sub => startsWithChars [] sub
  | c :: cs, sub => startsWithChars (c :: cs) sub || containsChars cs sub

/-- The method `s.includes(sub)` of JavaScript strings. -/
def includes (s sub : String) : Bool :=
  containsChars s.toList sub.toList

/-! ## Requests, responses and the world of a Responder -/

/-- A parsed query parameter as the frameworks hand it to the route: missing, a single
string, or (for a repeated key) an array of strings. -/
inductive QueryValue where
  | absent
  | single (s : String)
  | multi (xs : List String)
deriving DecidableEq, Repr

/-- The parsed query `req.query`. -/
abbrev Query := List (String × QueryValue)

/-- Property read `req.query.key`. -/
def Query.get (q : Query) (key : String) : QueryValue :=
  (q.lookup key).getD QueryValue.absent

/-- The part of an incoming request that the Responders read. -/
structure Request where
  method : String
  query : Query
deriving DecidableEq, Repr

/-- A JSON response body: an object, or a bare array of products. -/
inductive Body where
  | object (o : Obj)
  | productArray (ps : List Product)
deriving DecidableEq, Repr

/-- What `res.status(s).json(body)` sends. -/
structure Response where
  status : Nat
  body : Body
deriving DecidableEq, Repr

/-- The world a Responder runs in: the clock, the delays of the timers it has awaited,
and the structured records it has printed. -/
structure World where
  now : Nat
  slept : List Nat
  console : List Obj
deriving DecidableEq, Repr

/-- The statement `await new Promise(resolve => setTimeout(resolve, ms))`. -/
def World.sleep (w : World) (ms : Nat) : World :=
  { w with now := w.now + ms, slept := w.slept ++ [ms] }

/-- Printing a structured record with `console.log(JSON.stringify(o, null, 2))`. -/
def World.print (w : World) (o : Obj) : World :=
  { w with console := w.console ++ [o] }

/-- Total time the Responder has spent in injected delays. -/
def World.injectedDelay (w : World) : Nat :=
  w.slept.sum

/-! ## pages/api/products.js -/

namespace ProductsApi

/-- The constant `products` (lines 2-13). -/
def products : List Product :=
  [ ⟨1, "Wireless Headphones", none, 7999, 45⟩,
    ⟨2, "Smart Watch", none, 19999, 23⟩,
    ⟨3, "Laptop Stand", none, 3499, 67⟩,
    ⟨4, "USB-C Hub", none, 4999, 32⟩,
    ⟨5, "Mechanical Keyboard", none, 12999, 18⟩,
    ⟨6, "Webcam HD", none, 8999, 41⟩,
    ⟨7, "Mouse Pad XL", none, 2499, 95⟩,
    ⟨8, "Monitor 27\"", none, 29999, 12⟩,
    ⟨9, "Desk Lamp LED", none, 3999, 56⟩,
    ⟨10, "Cable Organizer", none, 1499, 103⟩ ]

/-- The function `logRequest` (lines 16-29): builds the structured record, prints it and
returns it. -/
def logRequest (logData : Obj) (w : World) : Obj × World :=
  let structuredLog : Obj :=
    [ ("timestamp", JVal.isoTime w.now),
      ("url", logData.get "url"),
      ("method", logData.get "method"),
      ("latencyMs", logData.get "latencyMs"),
      ("statusOrReason", logData.get "statusOrReason"),
      ("errorCode", (logData.get "errorCode").orElse JVal.null),
      ("message", (logData.get "message").orElse JVal.null) ]
  (structuredLog, w.print structuredLog)

/-- The `catch` block of `handler` (lines 117-132), entered with the message of the error
thrown inside the happy-path `try` block. -/
def handlerCatch (startTime : Nat) (url method errorMessage : String) (w : World) :
    Response × World :=
  let latencyMs : Int := (w.now : Int) - startTime
  let w1 := (logRequest
    [ ("url", JVal.str url),
      ("method", JVal.str method),
      ("latencyMs", JVal.num latencyMs),
      ("statusOrReason", JVal.num 500),
      ("errorCode", JVal.str "INTERNAL_ERROR"),
      ("message", JVal.str errorMessage) ] w).2
  (⟨500, Body.object
    [ ("error", JVal.str "Internal server error"),
      ("errorCode", JVal.str "INTERNAL_ERROR") ]⟩, w1)

/-- The function `handler` (lines 31-133). The statements of the happy-path `try` block
(a timer, a clock read, `logRequest`, `res.status(200).json`) are total here, so the
run never enters `handlerCatch`. -/
def handler (req : Request) (w : World) : Response × World :=
  let startTime := w.now
  let url := "/api/products"
  let method := req.method
  if method ≠ "GET" then
    let latencyMs : Int := (w.now : Int) - startTime
    let w1 := (logRequest
      [ ("url", JVal.str url),
        ("method", JVal.str method),
        ("latencyMs", JVal.num latencyMs),
        ("statusOrReason", JVal.num 405),
        ("errorCode", JVal.str "METHOD_NOT_ALLOWED"),
        ("message", JVal.str "Only GET requests are allowed") ] w).2
    (⟨405, Body.object [("error", JVal.str "Method not allowed")]⟩, w1)
  else
    let failureMode := req.query.get "failureMode"
    if failureMode = QueryValue.single "timeout" then
      let w1 := w.sleep 10000
      let latencyMs : Int := (w1.now : Int) - startTime
      let w2 := (logRequest
        [ ("url", JVal.str url),
          ("method", JVal.str method),
          ("latencyMs", JVal.num latencyMs),
          ("statusOrReason", JVal.str "TIMEOUT"),
          ("errorCode", JVal.str "NET_TIMEOUT"),
          ("message", JVal.str "Request timed out - server took too long to respond") ] w1).2
      (⟨504, Body.object
        [ ("error", JVal.str "Network failure: request timed out"),
          ("errorCode", JVal.str "NET_TIMEOUT"),
          ("timestamp", JVal.isoTime w2.now) ]⟩, w2)
    else if failureMode = QueryValue.single "503" then
      let w1 := w.sleep 200
      let latencyMs : Int := (w1.now : Int) - startTime
      let w2 := (logRequest
        [ ("url", JVal.str url),
          ("method", JVal.str method),
          ("latencyMs", JVal.num latencyMs),
          ("statusOrReason", JVal.num 503),
          ("errorCode", JVal.str "NET_503"),
          ("message", JVal.str "503 Service Unavailable - server temporarily unavailable") ] w1).2
      (⟨503, Body.object
        [ ("error", JVal.str "Network failure: 503 Service Unavailable"),
          ("errorCode", JVal.str "NET_503"),
          ("timestamp", JVal.isoTime w2.now) ]⟩, w2)
    else
      let w1 := w.sleep 150
      let latencyMs : Int := (w1.now : Int) - startTime
      let w2 := (logRequest
        [ ("url", JVal.str url),
          ("method", JVal.str method),
          ("latencyMs", JVal.num latencyMs),
          ("statusOrReason", JVal.num 200),
          ("message", JVal.str "Successfully retrieved products") ] w1).2
      (⟨200, Body.object
        [ ("success", JVal.bool true),
          ("count", JVal.num products.length),
          ("data", JVal.products products),
          ("timestamp", JVal.isoTime w2.now) ]⟩, w2)

end ProductsApi

/-! ## server.js -/

namespace Server

/-- The constant `products` (lines 14-27). -/
def products : List Product :=
  [ ⟨1, "Wireless Headphones", some "Electronics", 8999, 45⟩,
    ⟨2, "Smart Watch", some "Electronics", 19999, 23⟩,
    ⟨3, "Laptop Stand", some "Accessories", 3499, 67⟩,
    ⟨4, "USB-C Hub", some "Accessories", 4999, 102⟩,
    ⟨5, "Mechanical Keyboard", some "Electronics", 12999, 18⟩,
    ⟨6, "Ergonomic Mouse", some "Accessories", 3999, 88⟩,
    ⟨7, "Webcam HD", some "Electronics", 7999, 34⟩,
    ⟨8, "Desk Lamp", some "Furniture", 2999, 56⟩,
    ⟨9, "Monitor 27\"", some "Electronics", 29999, 12⟩,
    ⟨10, "Cable Organizer", some "Accessories", 1499, 150⟩,
    ⟨11, "Portable SSD 1TB", some "Storage", 11999, 41⟩,
    ⟨12, "Bluetooth Speaker", some "Audio", 5999, 72⟩ ]

/-- The callback of `app.get('/api/products', ...)` (lines 32-106). Express enters it for
requests whose method the registration `app.get` matches; it reads only the query. -/
def apiProducts (req : Request) (w : World) : Response × World :=
  let failure := req.query.get "failure"
  if failure = QueryValue.single "timeout" then
    let w1 := w.sleep 5000
    let errorLog : Obj :=
      [ ("timestamp", JVal.isoTime w1.now),
        ("endpoint", JVal.str "/api/products"),
        ("method", JVal.str "GET"),
        ("simulatedFailure", JVal.str "timeout"),
        ("actualDelay", JVal.str "5000ms"),
        ("clientTimeout", JVal.str "3000ms"),
        ("errorCode", JVal.str "NET_TIMEOUT"),
        ("message", JVal.str "Response delayed beyond client timeout threshold") ]
    let w2 := w1.print errorLog
    (⟨200, Body.productArray products⟩, w2)
  else if failure = QueryValue.single "503" then
    let errorLog : Obj :=
      [ ("timestamp", JVal.isoTime w.now),
        ("endpoint", JVal.str "/api/products"),
        ("method", JVal.str "GET"),
        ("statusCode", JVal.num 503),
        ("statusText", JVal.str "Service Unavailable"),
        ("simulatedFailure", JVal.str "503"),
        ("errorCode", JVal.str "NET_503"),
        ("message", JVal.str "Server is temporarily unable to handle the request"),
        ("retryAfter", JVal.str "60 seconds") ]
    let w1 := w.print errorLog
    (⟨503, Body.object
      [ ("error", JVal.str "Service Unavailable"),
        ("message", JVal.str
          "The server is temporarily unable to handle your request. Please try again later."),
        ("code", JVal.str "NET_503"),
        ("retryAfter", JVal.num 60) ]⟩, w1)
  else
    let successLog : Obj :=
      [ ("timestamp", JVal.isoTime w.now),
        ("endpoint", JVal.str "/api/products"),
        ("method", JVal.str "GET"),
        ("statusCode", JVal.num 200),
        ("productCount", JVal.num products.length),
        ("message", JVal.str "Products retrieved successfully") ]
    let w1 := w.print successLog
    (⟨200, Body.productArray products⟩, w1)

/-- The 404 middleware (lines 123-129), for a request no route has answered. -/
def notFound (url : String) : Response :=
  ⟨404, Body.object
    [ ("error", JVal.str "Not Found"),
      ("message", JVal.str ("Route " ++ url ++ " not found")),
      ("code", JVal.str "NET_404") ]⟩

/-- The error middleware (lines 132-149), for an error `err` with the given message and
stack that a route has thrown. -/
def errorHandler (errMessage errStack : String) (w : World) : Response × World :=
  let errorLog : Obj :=
    [ ("timestamp", JVal.isoTime w.now),
      ("error", JVal.str errMessage),
      ("stack", JVal.str errStack),
      ("errorCode", JVal.str "SERVER_ERROR") ]
  let w1 := w.print errorLog
  (⟨500, Body.object
    [ ("error", JVal.str "Internal Server Error"),
      ("message", JVal.str errMessage),
      ("code", JVal.str "SERVER_ERROR") ]⟩, w1)

end Server

/-! ## The browser side: errors, `fetch` and the abort timer -/

/-- A thrown JavaScript error as the Requesters inspect it: an instance of the class
`NetworkError` of app.js (its `name` is `NetworkError`, it carries `data`), or any other
error, with its `name` and `message`. -/
inductive JsError where
  | networkError (data : Obj)
  | other (name message : String)
deriving DecidableEq, Repr

/-- The property `error.name`; the constructor of `NetworkError` sets it (app.js line 128). -/
def JsError.name : JsError → String
  | JsError.networkError _ => "NetworkError"
  | JsError.other n _ => n

/-- The test `error instanceof NetworkError`. -/
def JsError.isNetworkError : JsError → Bool
  | JsError.networkError _ => true
  | JsError.other _ _ => false

/-- How a `fetch` call settles: with a response (status, status text, and what
`response.json()` then gives), or with a rejection. -/
inductive FetchResult where
  | response (status : Nat) (statusText : String) (json : Except JsError Body)
  | rejected (error : JsError)

/-- A settled `fetch`: the clock value at which it settles, and how. -/
structure Settled where
  time : Nat
  result : FetchResult

/-- The transport under `fetch`: for a URL and the clock value at which the request is
sent, when and how the call settles if nobody aborts it. -/
abbrev Transport := String → Nat → Settled

/-- The rejection `fetch` produces when its signal is aborted: a `DOMException` named
`AbortError`. Its message is the browser's and no Requester reads it. -/
def abortError : JsError :=
  JsError.other "AbortError" "The operation was aborted."

/-- The pair `setTimeout(() => controller.abort(), timeoutMs)` and
`fetch(url, { signal: controller.signal })` started at clock value `now`: the timer fires
exactly at `now + timeoutMs`; if the transport has not settled before that, the call
rejects with `abortError` at that moment, otherwise it settles as the transport does. -/
def fetchWithAbort (transport : Transport) (url : String) (now timeoutMs : Nat) : Settled :=
  let s := transport url now
  if now + timeoutMs ≤ s.time then ⟨now + timeoutMs, FetchResult.rejected abortError⟩ else s

/-- The record `error.data` of the `NetworkError` with which a call of `fetchProducts`
fails, if it fails with one. -/
def thrownData (outcome : Except JsError Body × Nat) : Option Obj :=
  match outcome.1 with
  | Except.error (JsError.networkError data) => some data
  | _ => none

/-- The nearest JavaScript Number to a non-negative integer: integers below 2^53 are
Numbers themselves; a larger one is rounded to 53 significant bits, a tie going to the
even neighbour. -/
def roundToDouble (n : Nat) : Nat :=
  if n < 2 ^ 53 then n
  else
    let dropped := Nat.log2 n - 52
    let kept := n / 2 ^ dropped
    let rest := n % 2 ^ dropped
    let half := 2 ^ (dropped - 1)
    let rounded := if half < rest ∨ (rest = half ∧ kept % 2 = 1) then kept + 1 else kept
    rounded * 2 ^ dropped

/-- The operator `a + b` on two Numbers that are non-negative integers. -/
def numberAdd (a b : Nat) : Nat :=
  roundToDouble (a + b)

/-- The delay a browser's `setTimeout` really waits for a non-negative integer argument:
the argument is converted to a 32-bit signed integer (modulo 2^32), and a negative
result counts as 0. Every literal delay of the program is below 2^31, where this is the
argument itself. -/
def setTimeoutDelay (ms : Nat) : Nat :=
  if ms % 2 ^ 32 < 2 ^ 31 then ms % 2 ^ 32 else 0

/-- The getter `response.ok`: the status is in the range 200-299. -/
def responseOk (status : Nat) : Bool :=
  decide (200 ≤ status ∧ status ≤ 299)

/-! ## app.js -/

namespace App

/-- The constant `API_BASE_URL` (line 12). -/
def API_BASE_URL : String := "http://localhost:3000"

/-- The constant `REQUEST_TIMEOUT` (line 13), in milliseconds. -/
def REQUEST_TIMEOUT : Nat := 3000

/-- The URL `fetchProducts` requests: the template literal of line 46. -/
def requestUrl (failureEnabled : Bool) (failureType : String) : String :=
  API_BASE_URL ++ "/api/products" ++
    (if failureEnabled then "?failure=" ++ failureType else "")

/-- The function `fetchProducts` (lines 45-122), called at clock value `now` with the
global `requestStartTime` already set by `loadProducts`. The result is what the function
returns or throws, together with the clock value at which it does. -/
def fetchProducts (transport : Transport) (requestStartTime now : Nat)
    (failureEnabled : Bool) (failureType : String) : Except JsError Body × Nat :=
  let url := requestUrl failureEnabled failureType
  let method := "GET"
  let settled := fetchWithAbort transport url now REQUEST_TIMEOUT
  let done := settled.time
  let tryBlock : Except JsError Body :=
    match settled.result with
    | FetchResult.rejected error => Except.error error
    | FetchResult.response status statusText json =>
      let latencyMs : Int := (done : Int) - requestStartTime
      if ¬ responseOk status then
        let errorData : Obj :=
          [ ("timestamp", JVal.isoTime done),
            ("url", JVal.str url),
            ("method", JVal.str method),
            ("latencyMs", JVal.num latencyMs),
            ("statusCode", JVal.num status),
            ("statusText", JVal.str statusText),
            ("errorCode", JVal.str (if status = 503 then "NET_503" else "NET_" ++ toString status)),
            ("message", JVal.str
              ("Network failure: " ++ toString status ++ " " ++ statusText)) ]
        Except.error (JsError.networkError errorData)
      else
        json
  match tryBlock with
  | Except.ok body => (Except.ok body, done)
  | Except.error error =>
    if error.name = "AbortError" then
      let latencyMs : Int := (done : Int) - requestStartTime
      let errorData : Obj :=
        [ ("timestamp", JVal.isoTime done),
          ("url", JVal.str url),
          ("method", JVal.str method),
          ("latencyMs", JVal.num latencyMs),
          ("statusOrReason", JVal.str "Request timeout"),
          ("errorCode", JVal.str "NET_TIMEOUT"),
          ("message", JVal.str
            ("Network failure: request timed out (exceeded " ++ toString REQUEST_TIMEOUT ++ "ms)")),
          ("timeoutThreshold", JVal.num REQUEST_TIMEOUT) ]
      (Except.error (JsError.networkError errorData), done)
    else
      match error with
      | JsError.networkError data => (Except.error (JsError.networkError data), done)
      | JsError.other errorName errorMessage =>
        let latencyMs : Int := (done : Int) - requestStartTime
        let errorData : Obj :=
          [ ("timestamp", JVal.isoTime done),
            ("url", JVal.str url),
            ("method", JVal.str method),
            ("latencyMs", JVal.num latencyMs),
            ("statusOrReason", JVal.str (strOrElse errorMessage "Connection failed")),
            ("errorCode", JVal.str "NET_CONNECTION_ERROR"),
            ("message", JVal.str
              ("Network failure: " ++ strOrElse errorMessage "Unable to connect to server")),
            ("originalError", JVal.str errorName) ]
        (Except.error (JsError.networkError errorData), done)

end App

/-! ## app-github-pages.js -/

namespace GhPages

/-- The constant `REQUEST_TIMEOUT` (line 12), in milliseconds. -/
def REQUEST_TIMEOUT : Nat := 3000

/-- The constant `MOCK_PRODUCTS` (lines 15-28). -/
def MOCK_PRODUCTS : List Product :=
  [ ⟨1, "Wireless Headphones", some "Electronics", 8999, 45⟩,
    ⟨2, "Smart Watch", some "Electronics", 19999, 23⟩,
    ⟨3, "Laptop Stand", some "Accessories", 3499, 67⟩,
    ⟨4, "USB-C Hub", some "Accessories", 4999, 102⟩,
    ⟨5, "Mechanical Keyboard", some "Electronics", 12999, 18⟩,
    ⟨6, "Ergonomic Mouse", some "Accessories", 3999, 88⟩,
    ⟨7, "Webcam HD", some "Electronics", 7999, 34⟩,
    ⟨8, "Desk Lamp", some "Furniture", 2999, 56⟩,
    ⟨9, "Monitor 27\"", some "Electronics", 29999, 12⟩,
    ⟨10, "Cable Organizer", some "Accessories", 1499, 150⟩,
    ⟨11, "Portable SSD 1TB", some "Storage", 11999, 41⟩,
    ⟨12, "Bluetooth Speaker", some "Audio", 5999, 72⟩ ]

/-- The delay after which the rejecting timer of line 80 fires, as a function of the
configured threshold: the Number `REQUEST_TIMEOUT + 100`, as `setTimeout` takes it. -/
def simulatedTimeoutDelay (requestTimeout : Nat) : Nat :=
  setTimeoutDelay (numberAdd requestTimeout 100)

/-- The URL `fetchProducts` reports in its records: the expression of line 61, on the
page `href` (`window.location.href`). -/
def requestUrl (href : String) (failureEnabled : Bool) (failureType : String) : String :=
  href ++ "api/products" ++ (if failureEnabled then "?failure=" ++ failureType else "")

/-- The function `fetchProducts` (lines 60-109), called at clock value `now` on the page
`href` (`window.location.href`) with the global `requestStartTime` already set. The
result is what the function returns or throws, together with the clock value at which
it does. -/
def fetchProducts (href : String) (requestStartTime now : Nat)
    (failureEnabled : Bool) (failureType : String) : Except JsError Body × Nat :=
  let url := requestUrl href failureEnabled failureType
  let method := "GET"
  if failureEnabled ∧ failureType = "timeout" then
    let fired := now + simulatedTimeoutDelay REQUEST_TIMEOUT
    let latencyMs : Int := (fired : Int) - requestStartTime
    let errorData : Obj :=
      [ ("timestamp", JVal.isoTime fired),
        ("url", JVal.str url),
        ("method", JVal.str method),
        ("latencyMs", JVal.num latencyMs),
        ("statusOrReason", JVal.str "Request timeout"),
        ("errorCode", JVal.str "NET_TIMEOUT"),
        ("message", JVal.str
          ("Network failure: request timed out (exceeded " ++ toString REQUEST_TIMEOUT ++ "ms)")),
        ("timeoutThreshold", JVal.num REQUEST_TIMEOUT) ]
    (Except.error (JsError.networkError errorData), fired)
  else if failureEnabled ∧ failureType = "503" then
    let done := now + 100
    let latencyMs : Int := (done : Int) - requestStartTime
    let errorData : Obj :=
      [ ("timestamp", JVal.isoTime done),
        ("url", JVal.str url),
        ("method", JVal.str method),
        ("latencyMs", JVal.num latencyMs),
        ("statusCode", JVal.num 503),
        ("statusText", JVal.str "Service Unavailable"),
        ("errorCode", JVal.str "NET_503"),
        ("message", JVal.str "Network failure: 503 Service Unavailable") ]
    (Except.error (JsError.networkError errorData), done)
  else
    let done := now + 100
    (Except.ok (Body.productArray MOCK_PRODUCTS), done)

end GhPages

/-! ## pages/index.js -/

namespace PagesIndex

/-- The delay of the abort timer, the literal `5000` of line 25, in milliseconds. -/
def abortAfterMs : Nat := 5000

/-- The React state that `fetchProducts` writes. -/
structure State where
  products : JVal
  loading : Bool
  error : JVal
  lastFetchTime : JVal
deriving DecidableEq, Repr

/-- What the `try` block of `fetchProducts` can throw: an error of the transport or of
`response.json()`, or the `new Error(v)` of line 37, kept with the value `v` it is built
from (its message is `String(v)`, which is `v` itself when `v` is a string). -/
inductive Thrown where
  | js (e : JsError)
  | httpError (v : JVal)

/-- The property `data.key` of a parsed body; a bare array has no such property. -/
def bodyGet (b : Body) (key : String) : JVal :=
  match b with
  | Body.object o => o.get key
  | Body.productArray _ => JVal.undefined

/-- The URL `fetchProducts` requests: the conditional expression of lines 19-21. -/
def requestUrl (failureMode : String) : String :=
  if failureMode ≠ "none" then "/api/products?failureMode=" ++ failureMode
  else "/api/products"

/-- The function `fetchProducts` (lines 12-56) with the state `failureMode`, called at
clock value `now`: the state it leaves behind. -/
def fetchProducts (transport : Transport) (failureMode : String) (now : Nat) : State :=
  let startTime := now
  let url := requestUrl failureMode
  let settled := fetchWithAbort transport url now abortAfterMs
  let fetchTime : Int := (settled.time : Int) - startTime
  let tryBlock : Except Thrown JVal :=
    match settled.result with
    | FetchResult.rejected e => Except.error (Thrown.js e)
    | FetchResult.response status _ json =>
      if ¬ responseOk status then
        match json with
        | Except.error e => Except.error (Thrown.js e)
        | Except.ok errorData =>
          Except.error (Thrown.httpError
            ((bodyGet errorData "error").orElse (JVal.str ("HTTP " ++ toString status))))
      else
        match json with
        | Except.error e => Except.error (Thrown.js e)
        | Except.ok data => Except.ok (bodyGet data "data")
  match tryBlock with
  | Except.ok products =>
    { products := products, loading := false, error := JVal.null,
      lastFetchTime := JVal.num fetchTime }
  | Except.error (Thrown.js e) =>
    let message : JVal :=
      if e.name = "AbortError" then
        JVal.str "Network failure: request timed out (client timeout: 5000ms)"
      else
        match e with
        | JsError.other _ m => JVal.str m
        | JsError.networkError data => data.get "message"
    { products := JVal.products [], loading := false, error := message,
      lastFetchTime := JVal.num fetchTime }
  | Except.error (Thrown.httpError v) =>
    { products := JVal.products [], loading := false, error := v,
      lastFetchTime := JVal.num fetchTime }

end PagesIndex

/-! ## A Requester wired to a Responder -/

/-- The characters before the first occurrence of `sep` (all of them if there is none). -/
def beforeFirst (sep : Char) : List Char → List Char
  | [] => []
  | c :: cs => if c = sep then [] else c :: beforeFirst sep cs

/-- The characters after the first occurrence of `sep`, if there is one. -/
def afterFirst (sep : Char) : List Char → Option (List Char)
  | [] => none
  | c :: cs => if c = sep then some cs else afterFirst sep cs

/-- The pieces of the character list between occurrences of `sep`. -/
def splitOnChar (sep : Char) : List Char → List (List Char)
  | [] => [[]]
  | c :: cs =>
    if c = sep then [] :: splitOnChar sep cs
    else
      match splitOnChar sep cs with
      | [] => [[c]]
      | piece :: pieces => (c :: piece) :: pieces

/-- Adding one `key=value` pair to a parsed query: a key seen before becomes an array. -/
def Query.add : Query → String → String → Query
  | [], k, v => [(k, QueryValue.single v)]
  | (k0, v0) :: rest, k, v =>
    if k0 = k then
      match v0 with
      | QueryValue.absent => (k0, QueryValue.single v) :: rest
      | QueryValue.single s => (k0, QueryValue.multi [s, v]) :: rest
      | QueryValue.multi xs => (k0, QueryValue.multi (xs ++ [v])) :: rest
    else (k0, v0) :: Query.add rest k v

/-- The query object the frameworks build from a request URL: the text between the first
`?` and a following `#`, cut at `&`, each piece cut at its first `=`. Percent-decoding is
not modelled; the URLs the Requesters build from the modes `none`, `timeout` and `503`
contain no escapes. -/
def parseQuery (url : String) : Query :=
  match afterFirst '?' url.toList with
  | none => []
  | some qs =>
    (splitOnChar '&' (beforeFirst '#' qs)).foldl
      (fun q piece =>
        if piece = [] then q
        else q.add (String.mk (beforeFirst '=' piece))
          (String.mk ((afterFirst '=' piece).getD [])))
      []

/-- The reason phrase a Node HTTP server sends with a status code when the program sets
none, for the status codes the Responders use. -/
def reasonPhrase (status : Nat) : String :=
  if status = 200 then "OK"
  else if status = 404 then "Not Found"
  else if status = 405 then "Method Not Allowed"
  else if status = 500 then "Internal Server Error"
  else if status = 503 then "Service Unavailable"
  else if status = 504 then "Gateway Timeout"
  else ""

/-- The transport that carries a GET request to a Responder and its answer back: the
Responder starts at the clock value at which the request is sent plus `latencyOut`, and
its response settles the call `latencyBack` after the Responder has sent it. -/
def transportTo (responder : Request → World → Response × World)
    (latencyOut latencyBack : Nat) : Transport :=
  fun url sentAt =>
    let r := responder ⟨"GET", parseQuery url⟩ ⟨sentAt + latencyOut, [], []⟩
    ⟨r.2.now + latencyBack,
      FetchResult.response r.1.status (reasonPhrase r.1.status) (Except.ok r.1.body)⟩

/-! ## The page of the browser Requesters: `loadProducts`, `handleError`, `logSuccess` -/

/-- The parts of the page that `loadProducts` and its helpers write: the text of the
error banner (`none` while it is hidden), the loading indicator, the product cards, and
the label and record that the on-page console shows. -/
structure Page where
  banner : Option JVal
  loading : Bool
  cards : List Product
  consoleLog : Option (String × Obj)
deriving DecidableEq, Repr

/-- The error `displayProducts` raises when the value it gets is not an array, so that
`products.forEach` is not a function. The wording of the message is the engine's. -/
def notAnArrayError : JsError :=
  JsError.other "TypeError" "products.forEach is not a function"

namespace App

/-- The function `logErrorToConsole` (lines 175-184). -/
def logErrorToConsole (errorData : Obj) (page : Page) : Page :=
  { page with consoleLog := some ("ERROR LOG", errorData) }

/-- The function `showErrorBanner` (lines 206-209). -/
def showErrorBanner (message : JVal) (page : Page) : Page :=
  { page with banner := some message }

/-- The function `handleError` (lines 154-172), called at clock value `now`. -/
def handleError (error : JsError) (now : Nat) (page : Page) : Page :=
  match error with
  | JsError.networkError data =>
    showErrorBanner (data.get "message") (logErrorToConsole data page)
  | JsError.other _ errorMessage =>
    let genericError : Obj :=
      [ ("timestamp", JVal.isoTime now),
        ("errorCode", JVal.str "UNKNOWN_ERROR"),
        ("message", JVal.str (strOrElse errorMessage "An unexpected error occurred")) ]
    showErrorBanner (genericError.get "message") (logErrorToConsole genericError page)

/-- The function `logSuccess` (lines 187-203), called at clock value `now`. -/
def logSuccess (productCount : JVal) (requestStartTime now : Nat) (page : Page) : Page :=
  let successData : Obj :=
    [ ("timestamp", JVal.isoTime now),
      ("url", JVal.str (API_BASE_URL ++ "/api/products")),
      ("method", JVal.str "GET"),
      ("latencyMs", JVal.num ((now : Int) - requestStartTime)),
      ("status", JVal.num 200),
      ("productCount", productCount),
      ("message", JVal.str "Products loaded successfully") ]
  { page with consoleLog := some ("SUCCESS LOG", successData) }

/-- The function `loadProducts` (lines 23-42), started at clock value `now` with the
toggle and the radio button in the given positions: the page it leaves behind. -/
def loadProducts (transport : Transport) (now : Nat) (failureEnabled : Bool)
    (failureType : String) (page : Page) : Page :=
  let page1 : Page := { page with banner := none, loading := true, cards := [] }
  let requestStartTime := now
  let outcome := fetchProducts transport requestStartTime now failureEnabled failureType
  let done := outcome.2
  let page2 : Page :=
    match outcome.1 with
    | Except.ok (Body.productArray products) =>
      logSuccess (JVal.num products.length) requestStartTime done
        { page1 with cards := products }
    | Except.ok (Body.object _) => handleError notAnArrayError done page1
    | Except.error error => handleError error done page1
  { page2 with loading := false }

end App

namespace GhPages

/-- The function `handleError` (lines 141-159), called at clock value `now`. -/
def handleError (error : JsError) (now : Nat) (page : Page) : Page :=
  match error with
  | JsError.networkError data =>
    { page with consoleLog := some ("ERROR LOG", data), banner := some (data.get "message") }
  | JsError.other _ errorMessage =>
    let genericError : Obj :=
      [ ("timestamp", JVal.isoTime now),
        ("errorCode", JVal.str "UNKNOWN_ERROR"),
        ("message", JVal.str (strOrElse errorMessage "An unexpected error occurred")) ]
    { page with consoleLog := some ("ERROR LOG", genericError),
                banner := some (genericError.get "message") }

/-- The function `logSuccess` (lines 174-190), called at clock value `now` on the page
`href`. -/
def logSuccess (href : String) (productCount : JVal) (requestStartTime now : Nat)
    (page : Page) : Page :=
  let successData : Obj :=
    [ ("timestamp", JVal.isoTime now),
      ("url", JVal.str (href ++ "api/products")),
      ("method", JVal.str "GET"),
      ("latencyMs", JVal.num ((now : Int) - requestStartTime)),
      ("status", JVal.num 200),
      ("productCount", productCount),
      ("message", JVal.str "Products loaded successfully") ]
  { page with consoleLog := some ("SUCCESS LOG", successData) }

/-- The function `loadProducts` (lines 38-57), started at clock value `now` on the page
`href`: the page it leaves behind. -/
def loadProducts (href : String) (now : Nat) (failureEnabled : Bool)
    (failureType : String) (page : Page) : Page :=
  let page1 : Page := { page with banner := none, loading := true, cards := [] }
  let requestStartTime := now
  let outcome := fetchProducts href requestStartTime now failureEnabled failureType
  let done := outcome.2
  let page2 : Page :=
    match outcome.1 with
    | Except.ok (Body.productArray products) =>
      logSuccess href (JVal.num products.length) requestStartTime done
        { page1 with cards := products }
    | Except.ok (Body.object _) => handleError notAnArrayError done page1
    | Except.error error => handleError error done page1
  { page2 with loading := false }

end GhPages

/-! ## Vocabulary of the claims -/

/-- The error codes the specification names literally. -/
def specErrorCodes : List String :=
  ["NET_TIMEOUT", "NET_503", "NET_CONNECTION_ERROR", "METHOD_NOT_ALLOWED", "UNKNOWN_ERROR"]

/-- Membership in the closed set of the specification: one of `specErrorCodes`, or
`NET_` followed by the decimal of an HTTP status. -/
def InSpecCodeSet (code : String) : Prop :=
  code ∈ specErrorCodes ∨ ∃ status : Nat, code = "NET_" ++ toString status

/-- The set of codes the program really uses: the set of the specification together
with `INTERNAL_ERROR` and `SERVER_ERROR`. -/
def InProgramCodeSet (code : String) : Prop :=
  InSpecCodeSet code ∨ code = "INTERNAL_ERROR" ∨ code = "SERVER_ERROR"

/-- A value found where a record or body keeps its error code is acceptable for a set of
codes when it is missing, `null`, or a string of the set. -/
def CodeWithin (allowed : String → Prop) : JVal → Prop
  | JVal.undefined => True
  | JVal.null => True
  | JVal.str code => allowed code
  | _ => False

/-- Whether a value is a success status: a number in [200,300). -/
def isSuccessStatus : JVal → Bool
  | JVal.num n => decide (200 ≤ n ∧ n < 300)
  | _ => false

/-- Whether a settled call hands the program an instance of its own class
`NetworkError`, which the `fetch` and `response.json()` of a browser never do. -/
def FetchResult.throwsNetworkError : FetchResult → Bool
  | FetchResult.rejected (JsError.networkError _) => true
  | FetchResult.response _ _ (Except.error (JsError.networkError _)) => true
  | _ => false

/-- A record without the properties `timestamp`, `url` and `latencyMs`. -/
def stripVolatile (o : Obj) : Obj :=
  o.filter fun kv => kv.1 ≠ "timestamp" ∧ kv.1 ≠ "url" ∧ kv.1 ≠ "latencyMs"

/-- What a caller observes of a call of `fetchProducts`, up to the properties
`timestamp`, `url` and `latencyMs` of a thrown record and up to the clock: the returned
body, or the thrown error with its record stripped. -/
def observe (outcome : Except JsError Body × Nat) : Except JsError Body :=
  match outcome.1 with
  | Except.ok body => Except.ok body
  | Except.error (JsError.networkError data) =>
    Except.error (JsError.networkError (stripVolatile data))
  | Except.error (JsError.other n m) => Except.error (JsError.other n m)

/-- Property read `body.key` on a parsed JSON body; a bare array has no named property. -/
def Body.get (b : Body) (key : String) : JVal :=
  match b with
  | Body.object o => o.get key
  | Body.productArray _ => JVal.undefined

/-! ## Reading properties of object literals -/

theorem Obj.get_nil (key : String) : Obj.get [] key = JVal.undefined := rfl

theorem Obj.get_cons (k key : String) (v : JVal) (o : Obj) :
    Obj.get ((k, v) :: o) key = if key = k then v else Obj.get o key := by
  by_cases h : key = k
  · simp [Obj.get, List.lookup, h]
  · have hb : (key == k) = false := by simpa using h
    simp [Obj.get, List.lookup, hb, h]

theorem Obj.has_nil (key : String) : Obj.has [] key = false := rfl

theorem Obj.has_cons (k key : String) (v : JVal) (o : Obj) :
    Obj.has ((k, v) :: o) key = if key = k then true else Obj.has o key := by
  by_cases h : key = k
  · simp [Obj.has, List.lookup, h]
  · have hb : (key == k) = false := by simpa using h
    simp [Obj.has, List.lookup, hb, h]

/-! ## The Responders -/

/-- C1, as stated, fails on `handler`: a POST request whose `failureMode` is `503` is
answered with status 405, not 503, and the record logged for it carries
`METHOD_NOT_ALLOWED`, not `NET_503`. -/
theorem handler_503_post_is_405 :
    (ProductsApi.handler ⟨"POST", [("failureMode", QueryValue.single "503")]⟩ ⟨0, [], []⟩).1.status
        = 405 ∧
    (ProductsApi.handler ⟨"POST", [("failureMode", QueryValue.single "503")]⟩ ⟨0, [], []⟩).1.status
        ≠ 503 ∧
    ((ProductsApi.handler ⟨"POST", [("failureMode", QueryValue.single "503")]⟩
        ⟨0, [], []⟩).2.console.map fun entry => entry.get "errorCode")
        = [JVal.str "METHOD_NOT_ALLOWED"] := by
  decide

/-- C1 (amended): for every GET request whose failure-mode parameter is `503`, whatever
its other inputs, the response status is 503 and the error code reported is `NET_503`:
`handler` logs one record with `errorCode` `NET_503` and sends a body whose `errorCode`
is `NET_503`; the `/api/products` callback of server.js prints one record with
`errorCode` `NET_503` and sends a body whose `code` is `NET_503`. -/
theorem responders_503_on_get (req sreq : Request) (w sw : World)
    (hm : req.method = "GET")
    (hq : req.query.get "failureMode" = QueryValue.single "503")
    (hs : sreq.query.get "failure" = QueryValue.single "503") :
    ((ProductsApi.handler req w).1.status = 503 ∧
      (∃ entry : Obj, (ProductsApi.handler req w).2.console = w.console ++ [entry] ∧
        entry.get "errorCode" = JVal.str "NET_503") ∧
      (∃ o : Obj, (ProductsApi.handler req w).1.body = Body.object o ∧
        o.get "errorCode" = JVal.str "NET_503")) ∧
    ((Server.apiProducts sreq sw).1.status = 503 ∧
      (∃ entry : Obj, (Server.apiProducts sreq sw).2.console = sw.console ++ [entry] ∧
        entry.get "errorCode" = JVal.str "NET_503") ∧
      (∃ o : Obj, (Server.apiProducts sreq sw).1.body = Body.object o ∧
        o.get "code" = JVal.str "NET_503")) := by
  constructor
  · simp [ProductsApi.handler, hm, hq, ProductsApi.logRequest, World.print, World.sleep,
      Obj.get_cons, Obj.get_nil, JVal.orElse, JVal.truthy]
  · simp [Server.apiProducts, hs, World.print, Obj.get_cons, Obj.get_nil]

/-- Witness for `responders_503_on_get`: a GET request with `failureMode=503` to
`handler` and a request with `failure=503` to the server.js callback. -/
theorem responders_503_on_get_witness :
    (ProductsApi.handler ⟨"GET", [("failureMode", QueryValue.single "503")]⟩
        ⟨0, [], []⟩).1.status = 503 ∧
    (Server.apiProducts ⟨"GET", [("failure", QueryValue.single "503")]⟩
        ⟨0, [], []⟩).1.status = 503 :=
  ⟨(responders_503_on_get ⟨"GET", [("failureMode", QueryValue.single "503")]⟩
      ⟨"GET", [("failure", QueryValue.single "503")]⟩ ⟨0, [], []⟩ ⟨0, [], []⟩
      rfl (by decide) (by decide)).1.1,
   (responders_503_on_get ⟨"GET", [("failureMode", QueryValue.single "503")]⟩
      ⟨"GET", [("failure", QueryValue.single "503")]⟩ ⟨0, [], []⟩ ⟨0, [], []⟩
      rfl (by decide) (by decide)).2.1⟩

/-- C2, as stated, fails on server.js: the record its happy path prints has no
`statusOrReason` property (its status is under `statusCode`) and no `errorCode`
property at all, so neither reads as 200 or as `null`. -/
theorem server_success_log_has_no_statusOrReason :
    ((Server.apiProducts ⟨"GET", []⟩ ⟨0, [], []⟩).2.console.map
        fun entry => (entry.get "statusOrReason", entry.get "errorCode", entry.has "errorCode"))
      = [(JVal.undefined, JVal.undefined, false)] ∧
    ((Server.apiProducts ⟨"GET", []⟩ ⟨0, [], []⟩).2.console.map
        fun entry => entry.get "statusOrReason") ≠ [JVal.num 200] := by
  decide

/-- C2 (amended): for every GET request whose failure mode is `none` or absent, both
Responders return status 200 with the full product collection; the record `handler`
logs has `statusOrReason` 200 and `errorCode` `null`, and the record server.js prints
has `statusCode` 200 and no `errorCode` property. -/
theorem responders_none_on_get (req sreq : Request) (w sw : World)
    (hm : req.method = "GET")
    (hq : req.query.get "failureMode" = QueryValue.absent ∨
      req.query.get "failureMode" = QueryValue.single "none")
    (hs : sreq.query.get "failure" = QueryValue.absent ∨
      sreq.query.get "failure" = QueryValue.single "none") :
    ((ProductsApi.handler req w).1.status = 200 ∧
      (∃ o : Obj, (ProductsApi.handler req w).1.body = Body.object o ∧
        o.get "data" = JVal.products ProductsApi.products ∧
        o.get "count" = JVal.num ProductsApi.products.length) ∧
      (∃ entry : Obj, (ProductsApi.handler req w).2.console = w.console ++ [entry] ∧
        entry.get "statusOrReason" = JVal.num 200 ∧
        entry.get "errorCode" = JVal.null)) ∧
    ((Server.apiProducts sreq sw).1.status = 200 ∧
      (Server.apiProducts sreq sw).1.body = Body.productArray Server.products ∧
      (∃ entry : Obj, (Server.apiProducts sreq sw).2.console = sw.console ++ [entry] ∧
        entry.get "statusCode" = JVal.num 200 ∧
        entry.has "errorCode" = false)) := by
  constructor
  · rcases hq with hq | hq <;>
      simp [ProductsApi.handler, hm, hq, ProductsApi.logRequest, World.print, World.sleep,
        Obj.get_cons, Obj.get_nil, JVal.orElse, JVal.truthy]
  · rcases hs with hs | hs <;>
      simp [Server.apiProducts, hs, World.print, Obj.get_cons, Obj.get_nil, Obj.has_cons,
        Obj.has_nil]

/-- Witness for `responders_none_on_get`: a GET request without any query parameter to
`handler`, and a request with `failure=none` to the server.js callback. -/
theorem responders_none_on_get_witness :
    (ProductsApi.handler ⟨"GET", []⟩ ⟨0, [], []⟩).1.status = 200 ∧
    (Server.apiProducts ⟨"GET", [("failure", QueryValue.single "none")]⟩ ⟨0, [], []⟩).1.body
      = Body.productArray Server.products :=
  ⟨(responders_none_on_get ⟨"GET", []⟩ ⟨"GET", [("failure", QueryValue.single "none")]⟩
      ⟨0, [], []⟩ ⟨0, [], []⟩ rfl (Or.inl (by decide)) (Or.inr (by decide))).1.1,
   (responders_none_on_get ⟨"GET", []⟩ ⟨"GET", [("failure", QueryValue.single "none")]⟩
      ⟨0, [], []⟩ ⟨0, [], []⟩ rfl (Or.inl (by decide)) (Or.inr (by decide))).2.2.1⟩

/-- C3, as stated, fails on `handler`: a GET request in mode `timeout` is answered,
after the 10000 ms delay, with status 504 and an error body that carries `errorCode`
`NET_TIMEOUT` and no product collection. -/
theorem handler_timeout_get_is_504 :
    (ProductsApi.handler ⟨"GET", [("failureMode", QueryValue.single "timeout")]⟩
        ⟨0, [], []⟩).1.status = 504 ∧
    (ProductsApi.handler ⟨"GET", [("failureMode", QueryValue.single "timeout")]⟩
        ⟨0, [], []⟩).1.status ≠ 200 ∧
    (ProductsApi.handler ⟨"GET", [("failureMode", QueryValue.single "timeout")]⟩
        ⟨0, [], []⟩).1.body =
      Body.object
        [ ("error", JVal.str "Network failure: request timed out"),
          ("errorCode", JVal.str "NET_TIMEOUT"),
          ("timestamp", JVal.isoTime 10000) ] := by
  decide

/-- C3 (amended): for every GET request whose failure mode is `timeout`, the
`/api/products` callback of server.js waits 5000 ms, prints one record and answers with
status 200 and the product collection; `handler` waits 10000 ms, logs one record with
`statusOrReason` `TIMEOUT` and `errorCode` `NET_TIMEOUT`, and answers with status 504
and an error body whose `errorCode` is `NET_TIMEOUT`. -/
theorem responders_timeout_on_get (req sreq : Request) (w sw : World)
    (hm : req.method = "GET")
    (hq : req.query.get "failureMode" = QueryValue.single "timeout")
    (hs : sreq.query.get "failure" = QueryValue.single "timeout") :
    ((Server.apiProducts sreq sw).1.status = 200 ∧
      (Server.apiProducts sreq sw).1.body = Body.productArray Server.products ∧
      (Server.apiProducts sreq sw).2.slept = sw.slept ++ [5000] ∧
      (Server.apiProducts sreq sw).2.now = sw.now + 5000 ∧
      (∃ entry : Obj, (Server.apiProducts sreq sw).2.console = sw.console ++ [entry] ∧
        entry.get "timestamp" = JVal.isoTime (sw.now + 5000))) ∧
    ((ProductsApi.handler req w).1.status = 504 ∧
      (∃ o : Obj, (ProductsApi.handler req w).1.body = Body.object o ∧
        o.get "errorCode" = JVal.str "NET_TIMEOUT") ∧
      (ProductsApi.handler req w).2.slept = w.slept ++ [10000] ∧
      (ProductsApi.handler req w).2.now = w.now + 10000 ∧
      (∃ entry : Obj, (ProductsApi.handler req w).2.console = w.console ++ [entry] ∧
        entry.get "statusOrReason" = JVal.str "TIMEOUT" ∧
        entry.get "errorCode" = JVal.str "NET_TIMEOUT" ∧
        entry.get "latencyMs" = JVal.num 10000)) := by
  constructor
  · simp [Server.apiProducts, hs, World.print, World.sleep, Obj.get_cons, Obj.get_nil]
  · simp [ProductsApi.handler, hm, hq, ProductsApi.logRequest, World.print, World.sleep,
      Obj.get_cons, Obj.get_nil, JVal.orElse, JVal.truthy]

/-- Witness for `responders_timeout_on_get`: GET requests in mode `timeout` to both
Responders. -/
theorem responders_timeout_on_get_witness :
    (Server.apiProducts ⟨"GET", [("failure", QueryValue.single "timeout")]⟩
        ⟨0, [], []⟩).1.status = 200 ∧
    (ProductsApi.handler ⟨"GET", [("failureMode", QueryValue.single "timeout")]⟩
        ⟨0, [], []⟩).1.status = 504 :=
  ⟨(responders_timeout_on_get ⟨"GET", [("failureMode", QueryValue.single "timeout")]⟩
      ⟨"GET", [("failure", QueryValue.single "timeout")]⟩ ⟨0, [], []⟩ ⟨0, [], []⟩
      rfl (by decide) (by decide)).1.1,
   (responders_timeout_on_get ⟨"GET", [("failureMode", QueryValue.single "timeout")]⟩
      ⟨"GET", [("failure", QueryValue.single "timeout")]⟩ ⟨0, [], []⟩ ⟨0, [], []⟩
      rfl (by decide) (by decide)).2.1⟩

/-- C4: for every GET request whose failure-mode parameter is anything other than the
strings `timeout` and `503` (another string, the empty string, a wrong-case spelling, an
array, or no parameter), each Responder produces exactly the response (status and body)
and the injected delays that it produces for mode `none` in the same world. -/
theorem responders_unrecognised_mode_is_none (req sreq : Request) (w sw : World)
    (hm : req.method = "GET")
    (hq1 : req.query.get "failureMode" ≠ QueryValue.single "timeout")
    (hq2 : req.query.get "failureMode" ≠ QueryValue.single "503")
    (hs1 : sreq.query.get "failure" ≠ QueryValue.single "timeout")
    (hs2 : sreq.query.get "failure" ≠ QueryValue.single "503") :
    ((ProductsApi.handler req w).1 =
        (ProductsApi.handler ⟨"GET", [("failureMode", QueryValue.single "none")]⟩ w).1 ∧
      (ProductsApi.handler req w).2.slept =
        (ProductsApi.handler ⟨"GET", [("failureMode", QueryValue.single "none")]⟩ w).2.slept ∧
      (ProductsApi.handler req w).2.slept = w.slept ++ [150]) ∧
    ((Server.apiProducts sreq sw).1 =
        (Server.apiProducts ⟨"GET", [("failure", QueryValue.single "none")]⟩ sw).1 ∧
      (Server.apiProducts sreq sw).2.slept =
        (Server.apiProducts ⟨"GET", [("failure", QueryValue.single "none")]⟩ sw).2.slept ∧
      (Server.apiProducts sreq sw).2.slept = sw.slept) := by
  have hn : Query.get [("failureMode", QueryValue.single "none")] "failureMode"
      = QueryValue.single "none" := by decide
  have hsn : Query.get [("failure", QueryValue.single "none")] "failure"
      = QueryValue.single "none" := by decide
  constructor
  · simp [ProductsApi.handler, hm, hq1, hq2, hn, ProductsApi.logRequest, World.print,
      World.sleep]
  · simp [Server.apiProducts, hs1, hs2, hsn, World.print]

/-- Witness for `responders_unrecognised_mode_is_none`: the wrong-case spelling
`Timeout` sent to `handler` and the empty string sent to server.js. -/
theorem responders_unrecognised_mode_is_none_witness :
    (ProductsApi.handler ⟨"GET", [("failureMode", QueryValue.single "Timeout")]⟩ ⟨0, [], []⟩).1 =
      (ProductsApi.handler ⟨"GET", [("failureMode", QueryValue.single "none")]⟩ ⟨0, [], []⟩).1 ∧
    (Server.apiProducts ⟨"GET", [("failure", QueryValue.single "")]⟩ ⟨0, [], []⟩).1 =
      (Server.apiProducts ⟨"GET", [("failure", QueryValue.single "none")]⟩ ⟨0, [], []⟩).1 :=
  ⟨(responders_unrecognised_mode_is_none
      ⟨"GET", [("failureMode", QueryValue.single "Timeout")]⟩
      ⟨"GET", [("failure", QueryValue.single "")]⟩ ⟨0, [], []⟩ ⟨0, [], []⟩
      rfl (by decide) (by decide) (by decide) (by decide)).1.1,
   (responders_unrecognised_mode_is_none
      ⟨"GET", [("failureMode", QueryValue.single "Timeout")]⟩
      ⟨"GET", [("failure", QueryValue.single "")]⟩ ⟨0, [], []⟩ ⟨0, [], []⟩
      rfl (by decide) (by decide) (by decide) (by decide)).2.1⟩

/-- C5: for every request whose method is not GET and every value of the failure-mode
parameter, `handler` responds with status 405 (so with none of 200, 503, 504), emits
exactly one log record, with `statusOrReason` 405 and `errorCode` `METHOD_NOT_ALLOWED`,
and awaits no timer: the clock and the list of injected delays are unchanged. -/
theorem handler_non_get_is_405 (req : Request) (w : World) (hm : req.method ≠ "GET") :
    (ProductsApi.handler req w).1.status = 405 ∧
    (ProductsApi.handler req w).1.body =
      Body.object [("error", JVal.str "Method not allowed")] ∧
    (∃ entry : Obj, (ProductsApi.handler req w).2.console = w.console ++ [entry] ∧
      entry.get "statusOrReason" = JVal.num 405 ∧
      entry.get "errorCode" = JVal.str "METHOD_NOT_ALLOWED" ∧
      entry.get "method" = JVal.str req.method) ∧
    (ProductsApi.handler req w).2.slept = w.slept ∧
    (ProductsApi.handler req w).2.now = w.now ∧
    (ProductsApi.handler req w).1.status ≠ 200 ∧
    (ProductsApi.handler req w).1.status ≠ 503 ∧
    (ProductsApi.handler req w).1.status ≠ 504 := by
  simp [ProductsApi.handler, hm, ProductsApi.logRequest, World.print, Obj.get_cons,
    Obj.get_nil, JVal.orElse, JVal.truthy]

/-- Witness for `handler_non_get_is_405`: a POST request in mode `timeout`. -/
theorem handler_non_get_is_405_witness :
    (ProductsApi.handler ⟨"POST", [("failureMode", QueryValue.single "timeout")]⟩
        ⟨7, [], []⟩).1.status = 405 ∧
    (ProductsApi.handler ⟨"POST", [("failureMode", QueryValue.single "timeout")]⟩
        ⟨7, [], []⟩).2.now = 7 :=
  ⟨(handler_non_get_is_405 ⟨"POST", [("failureMode", QueryValue.single "timeout")]⟩
      ⟨7, [], []⟩ (by decide)).1,
   (handler_non_get_is_405 ⟨"POST", [("failureMode", QueryValue.single "timeout")]⟩
      ⟨7, [], []⟩ (by decide)).2.2.2.2.1⟩

/-! ## The Requesters -/

theorem parseQuery_app_503 :
    parseQuery (App.requestUrl true "503") = [("failure", QueryValue.single "503")] := by
  decide

theorem parseQuery_app_timeout :
    parseQuery (App.requestUrl true "timeout") = [("failure", QueryValue.single "timeout")] := by
  decide

theorem parseQuery_index_none : parseQuery (PagesIndex.requestUrl "none") = [] := by
  decide

theorem parseQuery_index_timeout :
    parseQuery (PagesIndex.requestUrl "timeout") =
      [("failureMode", QueryValue.single "timeout")] := by
  decide

theorem parseQuery_index_503 :
    parseQuery (PagesIndex.requestUrl "503") = [("failureMode", QueryValue.single "503")] := by
  decide

/-- What `fetch` gets from server.js for the URL app.js builds in mode `503`. -/
theorem server_answer_503 (latencyOut latencyBack now : Nat) :
    transportTo Server.apiProducts latencyOut latencyBack (App.requestUrl true "503") now =
      ⟨now + latencyOut + latencyBack, FetchResult.response 503 "Service Unavailable"
        (Except.ok (Body.object
          [ ("error", JVal.str "Service Unavailable"),
            ("message", JVal.str
              "The server is temporarily unable to handle your request. Please try again later."),
            ("code", JVal.str "NET_503"),
            ("retryAfter", JVal.num 60) ]))⟩ := by
  unfold transportTo
  rw [parseQuery_app_503]
  rfl

/-- When the answer of server.js arrives for the URL app.js builds in mode `timeout`. -/
theorem server_answer_timeout (latencyOut latencyBack now : Nat) :
    (transportTo Server.apiProducts latencyOut latencyBack (App.requestUrl true "timeout") now).time =
      now + latencyOut + 5000 + latencyBack := by
  unfold transportTo
  rw [parseQuery_app_timeout]
  rfl

/-- The timeout message of both Requesters contains the decimal threshold. -/
theorem timeout_message_includes_threshold :
    includes
      ("Network failure: request timed out (exceeded " ++ toString App.REQUEST_TIMEOUT ++ "ms)")
      (toString App.REQUEST_TIMEOUT) = true := by
  decide

/-- C6, as stated, fails on the property name: for a 404 response that arrives 40 ms
after the request, the record of the thrown `NetworkError` has `statusCode` 404 and
`errorCode` `NET_404`, and no `statusOrReason` property, which reads as `undefined`. -/
theorem fetchProducts_http_error_has_no_statusOrReason :
    (thrownData (App.fetchProducts
        (fun _ _ => ⟨40, FetchResult.response 404 "Not Found" (Except.ok (Body.object []))⟩)
        0 0 false "timeout")).map
        (fun data => (data.get "statusOrReason", data.has "statusOrReason",
          data.get "statusCode", data.get "errorCode"))
      = some (JVal.undefined, false, JVal.num 404, JVal.str "NET_404") ∧
    (thrownData (App.fetchProducts
        (fun _ _ => ⟨40, FetchResult.response 404 "Not Found" (Except.ok (Body.object []))⟩)
        0 0 false "timeout")).map (fun data => data.get "statusOrReason")
      ≠ some (JVal.num 404) := by
  decide

/-- C6 (amended): for every HTTP response whose status lies outside [200,300) and that
arrives before the abort timer fires, `fetchProducts` of app.js throws a `NetworkError`
whose record has `errorCode` `NET_503` when the status is 503 and otherwise `NET_`
followed by the decimal status, has `statusCode` equal to that status and `statusText`
equal to the response's status text, and has no `statusOrReason` property; in
particular, against server.js in mode `503`, with a round trip shorter than the
threshold, it fails with `errorCode` `NET_503`. -/
theorem fetchProducts_http_error (transport : Transport) (requestStartTime now : Nat)
    (failureEnabled : Bool) (failureType : String) (arrival status : Nat)
    (statusText : String) (json : Except JsError Body) (latencyOut latencyBack : Nat)
    (htr : transport (App.requestUrl failureEnabled failureType) now =
      ⟨arrival, FetchResult.response status statusText json⟩)
    (harr : arrival < now + App.REQUEST_TIMEOUT)
    (hstatus : ¬ (200 ≤ status ∧ status < 300))
    (hlat : latencyOut + latencyBack < App.REQUEST_TIMEOUT) :
    (∃ data : Obj,
      App.fetchProducts transport requestStartTime now failureEnabled failureType =
        (Except.error (JsError.networkError data), arrival) ∧
      data.get "errorCode" =
        JVal.str (if status = 503 then "NET_503" else "NET_" ++ toString status) ∧
      data.get "statusCode" = JVal.num status ∧
      data.get "statusText" = JVal.str statusText ∧
      data.has "statusOrReason" = false) ∧
    (∃ data : Obj,
      (App.fetchProducts (transportTo Server.apiProducts latencyOut latencyBack)
          requestStartTime now true "503").1 =
        Except.error (JsError.networkError data) ∧
      data.get "errorCode" = JVal.str "NET_503" ∧
      data.get "statusCode" = JVal.num 503) := by
  have hok : responseOk status = false := by
    simp [responseOk]; omega
  have hfirst : ¬ (now + App.REQUEST_TIMEOUT ≤ arrival) := by omega
  have hsrv : ¬ (now + App.REQUEST_TIMEOUT ≤ now + latencyOut + latencyBack) := by omega
  constructor
  · simp [App.fetchProducts, fetchWithAbort, htr, hfirst, hok, JsError.name, Obj.get_cons,
      Obj.get_nil, Obj.has_cons, Obj.has_nil]
  · simp [App.fetchProducts, fetchWithAbort, server_answer_503, hsrv, responseOk, JsError.name,
      Obj.get_cons, Obj.get_nil]

/-- Witness for `fetchProducts_http_error`: a 404 response arriving after 40 ms, and
server.js in mode `503` behind a 5 ms + 7 ms round trip. -/
theorem fetchProducts_http_error_witness :
    ∃ data : Obj,
      (App.fetchProducts (transportTo Server.apiProducts 5 7) 0 0 true "503").1 =
        Except.error (JsError.networkError data) ∧
      data.get "errorCode" = JVal.str "NET_503" ∧
      data.get "statusCode" = JVal.num 503 :=
  (fetchProducts_http_error
    (fun _ _ => ⟨40, FetchResult.response 404 "Not Found" (Except.ok (Body.object []))⟩)
    0 0 false "timeout" 40 404 "Not Found" (Except.ok (Body.object [])) 5 7
    rfl (by decide) (by decide) (by decide)).2

/-- C7: whenever the `fetch` of app.js rejects with an error named `AbortError` (as it
does when the abort timer fires before the call completes), `fetchProducts` throws a
`NetworkError` whose record has `errorCode` `NET_TIMEOUT`, `statusOrReason`
`Request timeout`, and a message that contains the decimal value of `REQUEST_TIMEOUT`;
the simulation in app-github-pages.js, with failures enabled and failure type
`timeout`, throws a record with the same three properties. -/
theorem fetchProducts_abort_is_timeout (transport : Transport) (requestStartTime now : Nat)
    (failureEnabled : Bool) (failureType : String) (error : JsError)
    (href : String) (simStart simNow : Nat)
    (hres : (fetchWithAbort transport (App.requestUrl failureEnabled failureType) now
      App.REQUEST_TIMEOUT).result = FetchResult.rejected error)
    (hname : error.name = "AbortError") :
    (∃ (data : Obj) (message : String),
      (App.fetchProducts transport requestStartTime now failureEnabled failureType).1 =
        Except.error (JsError.networkError data) ∧
      data.get "errorCode" = JVal.str "NET_TIMEOUT" ∧
      data.get "statusOrReason" = JVal.str "Request timeout" ∧
      data.get "message" = JVal.str message ∧
      includes message (toString App.REQUEST_TIMEOUT) = true) ∧
    (∃ (data : Obj) (message : String),
      (GhPages.fetchProducts href simStart simNow true "timeout").1 =
        Except.error (JsError.networkError data) ∧
      data.get "errorCode" = JVal.str "NET_TIMEOUT" ∧
      data.get "statusOrReason" = JVal.str "Request timeout" ∧
      data.get "message" = JVal.str message ∧
      includes message (toString GhPages.REQUEST_TIMEOUT) = true) := by
  constructor
  · simp [App.fetchProducts, hres, hname, Obj.get_cons, Obj.get_nil]
    exact timeout_message_includes_threshold
  · simp [GhPages.fetchProducts, Obj.get_cons, Obj.get_nil]
    exact timeout_message_includes_threshold

/-- Witness for `fetchProducts_abort_is_timeout`: a transport that would answer only
after 9000 ms, so that the 3000 ms abort timer fires first. -/
theorem fetchProducts_abort_is_timeout_witness :
    ∃ (data : Obj) (message : String),
      (App.fetchProducts
          (fun _ _ => ⟨9000, FetchResult.response 200 "OK" (Except.ok (Body.productArray []))⟩)
          0 0 true "timeout").1 =
        Except.error (JsError.networkError data) ∧
      data.get "errorCode" = JVal.str "NET_TIMEOUT" ∧
      data.get "statusOrReason" = JVal.str "Request timeout" ∧
      data.get "message" = JVal.str message ∧
      includes message (toString App.REQUEST_TIMEOUT) = true :=
  (fetchProducts_abort_is_timeout
    (fun _ _ => ⟨9000, FetchResult.response 200 "OK" (Except.ok (Body.productArray []))⟩)
    0 0 true "timeout" abortError "https://example.github.io/store/" 0 0 rfl rfl).1

/-- C8, as stated, fails: when `fetch` rejects with a `TypeError` whose message is
`Failed to fetch`, the record's `message` is `Network failure: Failed to fetch`, which
does not contain the name `TypeError`; the name is in the property `originalError`. -/
theorem fetchProducts_connection_error_message_lacks_name :
    (thrownData (App.fetchProducts
        (fun _ _ => ⟨20, FetchResult.rejected (JsError.other "TypeError" "Failed to fetch")⟩)
        0 0 false "timeout")).map
        (fun data => (data.get "errorCode", data.get "message", data.get "originalError"))
      = some (JVal.str "NET_CONNECTION_ERROR", JVal.str "Network failure: Failed to fetch",
          JVal.str "TypeError") ∧
    includes "Network failure: Failed to fetch" "TypeError" = false := by
  decide

/-- C8 (amended): for every error with which `fetch` rejects that is neither named
`AbortError` nor a `NetworkError`, `fetchProducts` of app.js throws a `NetworkError`
whose record has `errorCode` `NET_CONNECTION_ERROR`, carries the underlying error's name
in its property `originalError`, and has as `message` the text `Network failure: `
followed by the underlying error's message, or by `Unable to connect to server` when
that message is empty. -/
theorem fetchProducts_connection_error (transport : Transport) (requestStartTime now : Nat)
    (failureEnabled : Bool) (failureType errorName errorMessage : String)
    (hres : (fetchWithAbort transport (App.requestUrl failureEnabled failureType) now
      App.REQUEST_TIMEOUT).result = FetchResult.rejected (JsError.other errorName errorMessage))
    (hname : errorName ≠ "AbortError") :
    ∃ data : Obj,
      (App.fetchProducts transport requestStartTime now failureEnabled failureType).1 =
        Except.error (JsError.networkError data) ∧
      data.get "errorCode" = JVal.str "NET_CONNECTION_ERROR" ∧
      data.get "originalError" = JVal.str errorName ∧
      data.get "message" =
        JVal.str ("Network failure: " ++ strOrElse errorMessage "Unable to connect to server") ∧
      data.get "statusOrReason" = JVal.str (strOrElse errorMessage "Connection failed") := by
  simp [App.fetchProducts, hres, hname, JsError.name, Obj.get_cons, Obj.get_nil]

/-- Witness for `fetchProducts_connection_error`: a `TypeError` with an empty message,
20 ms after the request. -/
theorem fetchProducts_connection_error_witness :
    ∃ data : Obj,
      (App.fetchProducts
          (fun _ _ => ⟨20, FetchResult.rejected (JsError.other "TypeError" "")⟩)
          0 0 true "503").1 =
        Except.error (JsError.networkError data) ∧
      data.get "errorCode" = JVal.str "NET_CONNECTION_ERROR" ∧
      data.get "originalError" = JVal.str "TypeError" ∧
      data.get "message" =
        JVal.str ("Network failure: " ++ strOrElse "" "Unable to connect to server") ∧
      data.get "statusOrReason" = JVal.str (strOrElse "" "Connection failed") :=
  fetchProducts_connection_error
    (fun _ _ => ⟨20, FetchResult.rejected (JsError.other "TypeError" "")⟩)
    0 0 true "503" "TypeError" "" rfl (by decide)

/-! ## Responder delay against Requester budget -/

theorem simulatedTimeoutDelay_small (requestTimeout : Nat)
    (hsmall : requestTimeout + 100 < 2 ^ 31) :
    GhPages.simulatedTimeoutDelay requestTimeout = requestTimeout + 100 := by
  have h53 : requestTimeout + 100 < 2 ^ 53 := by omega
  have h32 : (requestTimeout + 100) % 2 ^ 32 = requestTimeout + 100 :=
    Nat.mod_eq_of_lt (by omega)
  simp only [GhPages.simulatedTimeoutDelay, numberAdd, roundToDouble, setTimeoutDelay, if_pos h53,
    h32, if_pos hsmall]

theorem simulatedTimeoutDelay_configured :
    GhPages.simulatedTimeoutDelay GhPages.REQUEST_TIMEOUT = GhPages.REQUEST_TIMEOUT + 100 :=
  simulatedTimeoutDelay_small GhPages.REQUEST_TIMEOUT (by decide)

/-- When `fetchProducts` of app.js completes: when the transport settles, or when the
abort timer fires `REQUEST_TIMEOUT` after the call, whichever comes first. -/
theorem app_fetchProducts_completion (transport : Transport) (requestStartTime now : Nat)
    (failureEnabled : Bool) (failureType : String) :
    (App.fetchProducts transport requestStartTime now failureEnabled failureType).2 =
      min (transport (App.requestUrl failureEnabled failureType) now).time
        (now + App.REQUEST_TIMEOUT) := by
  have hdone : (App.fetchProducts transport requestStartTime now failureEnabled failureType).2 =
      (fetchWithAbort transport (App.requestUrl failureEnabled failureType) now
        App.REQUEST_TIMEOUT).time := by
    simp only [App.fetchProducts]
    split
    · rfl
    · split
      · rfl
      · split <;> rfl
  rw [hdone]
  by_cases h : now + App.REQUEST_TIMEOUT ≤
      (transport (App.requestUrl failureEnabled failureType) now).time
  · simp [fetchWithAbort, h]
  · simp only [fetchWithAbort, if_neg h]
    omega

/-- How long `fetchProducts` of pages/index.js reports to have waited: until the
transport settles, or until the abort timer fires 5000 ms after the call, whichever
comes first. -/
theorem index_fetchProducts_waits (transport : Transport) (failureMode : String) (now : Nat) :
    (PagesIndex.fetchProducts transport failureMode now).lastFetchTime =
      JVal.num (((min (transport (PagesIndex.requestUrl failureMode) now).time
        (now + PagesIndex.abortAfterMs) : Nat) : Int) - now) := by
  have hwait : (PagesIndex.fetchProducts transport failureMode now).lastFetchTime =
      JVal.num (((fetchWithAbort transport (PagesIndex.requestUrl failureMode) now
        PagesIndex.abortAfterMs).time : Int) - now) := by
    simp only [PagesIndex.fetchProducts]
    split
    · rfl
    · rfl
    · rfl
  rw [hwait]
  by_cases h : now + PagesIndex.abortAfterMs ≤
      (transport (PagesIndex.requestUrl failureMode) now).time
  · simp [fetchWithAbort, h]
  · have hmin : min (transport (PagesIndex.requestUrl failureMode) now).time
        (now + PagesIndex.abortAfterMs) =
        (transport (PagesIndex.requestUrl failureMode) now).time := by omega
    simp only [fetchWithAbort, if_neg h, hmin]

/-- When the answer of `handler` arrives for the URL pages/index.js builds in mode
`timeout`. -/
theorem handler_answer_timeout (latencyOut latencyBack now : Nat) :
    (transportTo ProductsApi.handler latencyOut latencyBack
      (PagesIndex.requestUrl "timeout") now).time = now + latencyOut + 10000 + latencyBack := by
  unfold transportTo
  rw [parseQuery_index_timeout]
  rfl

/-- C9, as stated, fails in its last part: for the threshold 2147483548 the sum
`REQUEST_TIMEOUT + 100` is 2^31, which `setTimeout` takes as a negative 32-bit delay
and so as 0; the rejecting timer of the simulation then fires at once, which does not
exceed the threshold. -/
theorem simulated_delay_wraps_at_32_bits :
    GhPages.simulatedTimeoutDelay 2147483548 = 0 ∧
    ¬ (2147483548 < GhPages.simulatedTimeoutDelay 2147483548) := by
  decide

/-- C9 (amended): in each pairing the delay the Responder injects in mode `timeout`
exceeds the Requester's time budget by a positive margin. server.js awaits 5000 ms,
while `fetchProducts` of app.js never waits longer than `REQUEST_TIMEOUT` = 3000 ms for
any transport, and against server.js in mode `timeout` gives up with `NET_TIMEOUT`
exactly then, at least 2000 ms before the response can arrive. `handler` awaits 10000
ms, while `fetchProducts` of pages/index.js never waits longer than 5000 ms, and
against `handler` in mode `timeout` gives up exactly then, at least 5000 ms before the
response can arrive. The simulation in app-github-pages.js rejects
`REQUEST_TIMEOUT + 100` = 3100 ms after the call, and this delay exceeds the threshold
by 100 ms for every value of the constant up to 2^31 - 101. -/
theorem timeout_delay_exceeds_budget (req sreq : Request) (w sw : World)
    (transport : Transport) (href : String) (start now latencyOut latencyBack : Nat)
    (failureEnabled : Bool) (failureType failureMode : String) (requestTimeout : Nat)
    (hm : req.method = "GET")
    (hq : req.query.get "failureMode" = QueryValue.single "timeout")
    (hs : sreq.query.get "failure" = QueryValue.single "timeout")
    (hsmall : requestTimeout + 100 < 2 ^ 31) :
    ((Server.apiProducts sreq sw).2.slept = sw.slept ++ [5000] ∧
      (App.fetchProducts transport start now failureEnabled failureType).2 =
        min (transport (App.requestUrl failureEnabled failureType) now).time
          (now + App.REQUEST_TIMEOUT) ∧
      App.REQUEST_TIMEOUT + 2000 = 5000 ∧
      (App.fetchProducts (transportTo Server.apiProducts latencyOut latencyBack)
          start now true "timeout").2 = now + App.REQUEST_TIMEOUT ∧
      (thrownData (App.fetchProducts (transportTo Server.apiProducts latencyOut latencyBack)
          start now true "timeout")).map (fun data => data.get "errorCode") =
        some (JVal.str "NET_TIMEOUT") ∧
      now + App.REQUEST_TIMEOUT + 2000 ≤
        (transportTo Server.apiProducts latencyOut latencyBack
          (App.requestUrl true "timeout") now).time) ∧
    ((ProductsApi.handler req w).2.slept = w.slept ++ [10000] ∧
      (PagesIndex.fetchProducts transport failureMode now).lastFetchTime =
        JVal.num (((min (transport (PagesIndex.requestUrl failureMode) now).time
          (now + PagesIndex.abortAfterMs) : Nat) : Int) - now) ∧
      PagesIndex.abortAfterMs + 5000 = 10000 ∧
      PagesIndex.fetchProducts (transportTo ProductsApi.handler latencyOut latencyBack)
          "timeout" now =
        { products := JVal.products [], loading := false,
          error := JVal.str "Network failure: request timed out (client timeout: 5000ms)",
          lastFetchTime := JVal.num PagesIndex.abortAfterMs } ∧
      now + PagesIndex.abortAfterMs + 5000 ≤
        (transportTo ProductsApi.handler latencyOut latencyBack
          (PagesIndex.requestUrl "timeout") now).time) ∧
    ((GhPages.fetchProducts href start now true "timeout").2 =
        now + (GhPages.REQUEST_TIMEOUT + 100) ∧
      (thrownData (GhPages.fetchProducts href start now true "timeout")).map
          (fun data => data.get "errorCode") = some (JVal.str "NET_TIMEOUT") ∧
      GhPages.simulatedTimeoutDelay requestTimeout = requestTimeout + 100 ∧
      requestTimeout < GhPages.simulatedTimeoutDelay requestTimeout) := by
  have h3 : App.REQUEST_TIMEOUT = 3000 := rfl
  have h5 : PagesIndex.abortAfterMs = 5000 := rfl
  have hsrv := server_answer_timeout latencyOut latencyBack now
  have hhdl := handler_answer_timeout latencyOut latencyBack now
  have hcs : now + App.REQUEST_TIMEOUT ≤ now + latencyOut + 5000 + latencyBack := by omega
  have hch : now + PagesIndex.abortAfterMs ≤ now + latencyOut + 10000 + latencyBack := by
    omega
  refine ⟨⟨?_, app_fetchProducts_completion transport start now failureEnabled failureType,
      rfl, ?_, ?_, ?_⟩,
    ⟨?_, index_fetchProducts_waits transport failureMode now, rfl, ?_, ?_⟩, ?_, ?_, ?_, ?_⟩
  · simp [Server.apiProducts, hs, World.print, World.sleep]
  · rw [app_fetchProducts_completion, hsrv]
    omega
  · simp [thrownData, App.fetchProducts, fetchWithAbort, hsrv, hcs, abortError, JsError.name,
      Obj.get_cons, Obj.get_nil]
  · rw [hsrv]
    omega
  · simp [ProductsApi.handler, hm, hq, ProductsApi.logRequest, World.print, World.sleep]
  · simp [PagesIndex.fetchProducts, fetchWithAbort, hhdl, hch, abortError, JsError.name]
  · rw [hhdl]
    omega
  · simp [GhPages.fetchProducts, simulatedTimeoutDelay_configured]
  · simp [thrownData, GhPages.fetchProducts, Obj.get_cons, Obj.get_nil]
  · exact simulatedTimeoutDelay_small requestTimeout hsmall
  · rw [simulatedTimeoutDelay_small requestTimeout hsmall]
    omega

/-- Witness for `timeout_delay_exceeds_budget`: GET requests in mode `timeout` to both
Responders, a transport that answers after 40 ms, and the threshold 3000. -/
theorem timeout_delay_exceeds_budget_witness :
    (Server.apiProducts ⟨"GET", [("failure", QueryValue.single "timeout")]⟩
        ⟨0, [], []⟩).2.slept = [] ++ [5000] ∧
    PagesIndex.fetchProducts (transportTo ProductsApi.handler 5 7) "timeout" 0 =
      { products := JVal.products [], loading := false,
        error := JVal.str "Network failure: request timed out (client timeout: 5000ms)",
        lastFetchTime := JVal.num PagesIndex.abortAfterMs } ∧
    (3000 : Nat) < GhPages.simulatedTimeoutDelay 3000 :=
  ⟨(timeout_delay_exceeds_budget ⟨"GET", [("failureMode", QueryValue.single "timeout")]⟩
      ⟨"GET", [("failure", QueryValue.single "timeout")]⟩ ⟨0, [], []⟩ ⟨0, [], []⟩
      (fun _ _ => ⟨40, FetchResult.response 200 "OK" (Except.ok (Body.productArray []))⟩)
      "https://example.github.io/store/" 0 0 5 7 true "timeout" "timeout" 3000
      rfl (by decide) (by decide) (by decide)).1.1,
   (timeout_delay_exceeds_budget ⟨"GET", [("failureMode", QueryValue.single "timeout")]⟩
      ⟨"GET", [("failure", QueryValue.single "timeout")]⟩ ⟨0, [], []⟩ ⟨0, [], []⟩
      (fun _ _ => ⟨40, FetchResult.response 200 "OK" (Except.ok (Body.productArray []))⟩)
      "https://example.github.io/store/" 0 0 5 7 true "timeout" "timeout" 3000
      rfl (by decide) (by decide) (by decide)).2.1.2.2.2.1,
   (timeout_delay_exceeds_budget ⟨"GET", [("failureMode", QueryValue.single "timeout")]⟩
      ⟨"GET", [("failure", QueryValue.single "timeout")]⟩ ⟨0, [], []⟩ ⟨0, [], []⟩
      (fun _ _ => ⟨40, FetchResult.response 200 "OK" (Except.ok (Body.productArray []))⟩)
      "https://example.github.io/store/" 0 0 5 7 true "timeout" "timeout" 3000
      rfl (by decide) (by decide) (by decide)).2.2.2.2.2⟩

/-- C10: with timers that fire exactly at their delay and a clock that has advanced by
`lag` (at least 0) between the assignment of `requestStartTime` and the call of
`fetchProducts`, a Requester with budget B = `REQUEST_TIMEOUT` in mode `timeout` fails
with `errorCode` `NET_TIMEOUT`. For app.js against server.js, whatever the network
latencies, it fails at the moment the abort timer fires and records
`latencyMs = B + lag`; the simulation in app-github-pages.js records
`latencyMs = B + 100 + lag`. Both lie between B and B + (100 + lag). -/
theorem timeout_latency_within_budget_window (start lag latencyOut latencyBack : Nat)
    (href : String) :
    (∃ (data : Obj) (latency : Int),
      App.fetchProducts (transportTo Server.apiProducts latencyOut latencyBack)
          start (start + lag) true "timeout" =
        (Except.error (JsError.networkError data), start + lag + App.REQUEST_TIMEOUT) ∧
      data.get "errorCode" = JVal.str "NET_TIMEOUT" ∧
      data.get "latencyMs" = JVal.num latency ∧
      latency = (App.REQUEST_TIMEOUT : Int) + lag ∧
      (App.REQUEST_TIMEOUT : Int) ≤ latency ∧
      latency ≤ (App.REQUEST_TIMEOUT : Int) + (100 + lag)) ∧
    (∃ (data : Obj) (latency : Int),
      GhPages.fetchProducts href start (start + lag) true "timeout" =
        (Except.error (JsError.networkError data),
          start + lag + (GhPages.REQUEST_TIMEOUT + 100)) ∧
      data.get "errorCode" = JVal.str "NET_TIMEOUT" ∧
      data.get "latencyMs" = JVal.num latency ∧
      latency = (GhPages.REQUEST_TIMEOUT : Int) + 100 + lag ∧
      (GhPages.REQUEST_TIMEOUT : Int) ≤ latency ∧
      latency ≤ (GhPages.REQUEST_TIMEOUT : Int) + (100 + lag)) := by
  have h3 : App.REQUEST_TIMEOUT = 3000 := rfl
  have hc : start + lag + App.REQUEST_TIMEOUT ≤
      start + lag + latencyOut + 5000 + latencyBack := by
    omega
  constructor
  · simp [App.fetchProducts, fetchWithAbort, server_answer_timeout, hc, abortError, JsError.name,
      Obj.get_cons, Obj.get_nil]
    omega
  · simp [GhPages.fetchProducts, simulatedTimeoutDelay_configured, Obj.get_cons, Obj.get_nil]
    omega

/-! ## The error codes of the program -/

theorem not_net_status_of_head (code : String) (c : Char) (cs : List Char)
    (hdata : code.toList = c :: cs) (hc : c ≠ 'N') :
    ¬ ∃ status : Nat, code = "NET_" ++ toString status := by
  rintro ⟨status, h⟩
  have h2 : code.toList = ("NET_" ++ toString status).toList := by rw [h]
  rw [hdata] at h2
  simp at h2
  exact hc h2.1

theorem app_thrown_code_in_spec_set (transport : Transport) (requestStartTime now : Nat)
    (failureEnabled : Bool) (failureType : String) (error : JsError)
    (hgenuine : (fetchWithAbort transport (App.requestUrl failureEnabled failureType) now
      App.REQUEST_TIMEOUT).result.throwsNetworkError = false)
    (hthrown : (App.fetchProducts transport requestStartTime now failureEnabled failureType).1 =
      Except.error error) :
    ∃ data, error = JsError.networkError data ∧
      CodeWithin InSpecCodeSet (data.get "errorCode") := by
  revert hthrown
  simp only [App.fetchProducts]
  generalize (fetchWithAbort transport (App.requestUrl failureEnabled failureType) now
      App.REQUEST_TIMEOUT) = settled at hgenuine
  rcases settled with ⟨t, result⟩
  rcases result with ⟨status, statusText, json⟩ | err
  · cases hok : responseOk status
    · by_cases h503 : status = 503
      · subst h503
        simp [hok, JsError.name]
        rintro rfl
        simp [Obj.get_cons, Obj.get_nil, CodeWithin, InSpecCodeSet, specErrorCodes]
      · simp [hok, h503, JsError.name]
        rintro rfl
        refine ⟨_, rfl, ?_⟩
        simp [Obj.get_cons, Obj.get_nil, CodeWithin]
        exact Or.inr ⟨status, rfl⟩
    · rcases json with e | b
      · rcases e with data | ⟨n, m⟩
        · simp [FetchResult.throwsNetworkError] at hgenuine
        · by_cases hn : n = "AbortError"
          · simp [hok, hn, JsError.name]
            rintro rfl
            simp [Obj.get_cons, Obj.get_nil, CodeWithin, InSpecCodeSet, specErrorCodes]
          · simp [hok, hn, JsError.name]
            rintro rfl
            simp [Obj.get_cons, Obj.get_nil, CodeWithin, InSpecCodeSet, specErrorCodes]
      · simp [hok]
  · rcases err with data | ⟨n, m⟩
    · simp [FetchResult.throwsNetworkError] at hgenuine
    · by_cases hn : n = "AbortError"
      · simp [hn, JsError.name]
        rintro rfl
        simp [Obj.get_cons, Obj.get_nil, CodeWithin, InSpecCodeSet, specErrorCodes]
      · simp [hn, JsError.name]
        rintro rfl
        simp [Obj.get_cons, Obj.get_nil, CodeWithin, InSpecCodeSet, specErrorCodes]
theorem handler_codes_in_spec_set (req : Request) (w : World) :
    (∃ entry : Obj, (ProductsApi.handler req w).2.console = w.console ++ [entry] ∧
      CodeWithin InSpecCodeSet (entry.get "errorCode")) ∧
    CodeWithin InSpecCodeSet ((ProductsApi.handler req w).1.body.get "errorCode") := by
  by_cases hm : req.method = "GET"
  · by_cases ht : req.query.get "failureMode" = QueryValue.single "timeout"
    · simp [ProductsApi.handler, hm, ht, ProductsApi.logRequest, World.print, World.sleep,
        Body.get, Obj.get_cons, Obj.get_nil, JVal.orElse, JVal.truthy, CodeWithin, InSpecCodeSet,
        specErrorCodes]
    · by_cases h5 : req.query.get "failureMode" = QueryValue.single "503"
      · simp [ProductsApi.handler, hm, h5, ProductsApi.logRequest, World.print, World.sleep,
          Body.get, Obj.get_cons, Obj.get_nil, JVal.orElse, JVal.truthy, CodeWithin,
          InSpecCodeSet, specErrorCodes]
      · simp [ProductsApi.handler, hm, ht, h5, ProductsApi.logRequest, World.print, World.sleep,
          Body.get, Obj.get_cons, Obj.get_nil, JVal.orElse, JVal.truthy, CodeWithin]
  · simp [ProductsApi.handler, hm, ProductsApi.logRequest, World.print,
      Body.get, Obj.get_cons, Obj.get_nil, JVal.orElse, JVal.truthy, CodeWithin, InSpecCodeSet,
      specErrorCodes]

theorem server_codes_in_spec_set (sreq : Request) (sw : World) :
    (∃ entry : Obj, (Server.apiProducts sreq sw).2.console = sw.console ++ [entry] ∧
      CodeWithin InSpecCodeSet (entry.get "errorCode")) ∧
    CodeWithin InSpecCodeSet ((Server.apiProducts sreq sw).1.body.get "code") := by
  by_cases ht : sreq.query.get "failure" = QueryValue.single "timeout"
  · simp [Server.apiProducts, ht, World.print, World.sleep, Body.get, Obj.get_cons, Obj.get_nil,
      CodeWithin, InSpecCodeSet, specErrorCodes]
  · by_cases h5 : sreq.query.get "failure" = QueryValue.single "503"
    · simp [Server.apiProducts, h5, World.print, Body.get, Obj.get_cons, Obj.get_nil,
        CodeWithin, InSpecCodeSet, specErrorCodes]
    · simp [Server.apiProducts, ht, h5, World.print, Body.get, Obj.get_cons, Obj.get_nil,
        CodeWithin]

theorem app_logged_code_in_spec_set (transport : Transport) (now : Nat)
    (failureEnabled : Bool) (failureType : String) (page : Page) (label : String) (record : Obj)
    (hgenuine : (fetchWithAbort transport (App.requestUrl failureEnabled failureType) now
      App.REQUEST_TIMEOUT).result.throwsNetworkError = false)
    (hlog : (App.loadProducts transport now failureEnabled failureType page).consoleLog =
      some (label, record)) :
    CodeWithin InSpecCodeSet (record.get "errorCode") := by
  revert hlog
  rcases hout : (App.fetchProducts transport now now failureEnabled failureType).1 with e | b
  · obtain ⟨data, rfl, hcode⟩ :=
      app_thrown_code_in_spec_set transport now now failureEnabled failureType e hgenuine hout
    simp only [App.loadProducts, hout, App.handleError, App.showErrorBanner,
      App.logErrorToConsole]
    simp
    rintro - rfl
    exact hcode
  · rcases b with o | ps
    · simp only [App.loadProducts, hout, App.handleError, App.showErrorBanner,
        App.logErrorToConsole, notAnArrayError]
      simp
      rintro - rfl
      simp [Obj.get_cons, Obj.get_nil, CodeWithin, InSpecCodeSet, specErrorCodes]
    · simp only [App.loadProducts, hout, App.logSuccess]
      simp
      rintro - rfl
      simp [Obj.get_cons, Obj.get_nil, CodeWithin]

theorem ghpages_thrown_code_in_spec_set (href : String) (requestStartTime now : Nat)
    (failureEnabled : Bool) (failureType : String) :
    (∃ data, (GhPages.fetchProducts href requestStartTime now failureEnabled failureType).1 =
        Except.error (JsError.networkError data) ∧
      CodeWithin InSpecCodeSet (data.get "errorCode")) ∨
    (GhPages.fetchProducts href requestStartTime now failureEnabled failureType).1 =
      Except.ok (Body.productArray GhPages.MOCK_PRODUCTS) := by
  by_cases ht : failureEnabled = true ∧ failureType = "timeout"
  · left
    simp [GhPages.fetchProducts, ht, Obj.get_cons, Obj.get_nil, CodeWithin, InSpecCodeSet,
      specErrorCodes]
  · by_cases h5 : failureEnabled = true ∧ failureType = "503"
    · left
      simp [GhPages.fetchProducts, h5, Obj.get_cons, Obj.get_nil, CodeWithin, InSpecCodeSet,
        specErrorCodes]
    · right
      simp only [GhPages.fetchProducts, if_neg ht, if_neg h5]

theorem ghpages_logged_code_in_spec_set (href : String) (now : Nat)
    (failureEnabled : Bool) (failureType : String) (page : Page) (label : String) (record : Obj)
    (hlog : (GhPages.loadProducts href now failureEnabled failureType page).consoleLog =
      some (label, record)) :
    CodeWithin InSpecCodeSet (record.get "errorCode") := by
  revert hlog
  rcases ghpages_thrown_code_in_spec_set href now now failureEnabled failureType with
    ⟨data, hout, hcode⟩ | hout
  · simp only [GhPages.loadProducts, hout, GhPages.handleError]
    simp
    rintro - rfl
    exact hcode
  · simp only [GhPages.loadProducts, hout, GhPages.logSuccess]
    simp
    rintro - rfl
    simp [Obj.get_cons, Obj.get_nil, CodeWithin]
/-- C11, as stated, fails: the error middleware of server.js answers with the code
`SERVER_ERROR` and prints a record with `errorCode` `SERVER_ERROR`, and the `catch`
block of `handler` logs and sends `INTERNAL_ERROR`; neither code is in the closed set
of the specification. -/
theorem server_error_code_outside_spec_set :
    (Server.errorHandler "boom" "" ⟨0, [], []⟩).1.body.get "code" = JVal.str "SERVER_ERROR" ∧
    ((Server.errorHandler "boom" "" ⟨0, [], []⟩).2.console.map
      fun entry => entry.get "errorCode") = [JVal.str "SERVER_ERROR"] ∧
    ¬ InSpecCodeSet "SERVER_ERROR" ∧
    (ProductsApi.handlerCatch 0 "/api/products" "GET" "boom" ⟨150, [150], []⟩).1.body.get
      "errorCode" = JVal.str "INTERNAL_ERROR" ∧
    ¬ InSpecCodeSet "INTERNAL_ERROR" := by
  refine ⟨by decide, by decide, ?_, by decide, ?_⟩
  · rintro (h | h)
    · revert h; decide
    · exact not_net_status_of_head "SERVER_ERROR" 'S' _ rfl (by decide) h
  · rintro (h | h)
    · revert h; decide
    · exact not_net_status_of_head "INTERNAL_ERROR" 'I' _ rfl (by decide) h

/-- C11 (amended): every error code a component emits, in a record or in a response
body, belongs to the closed set of the specification, with two exceptions that lie in
the larger set of the program: the `catch` block of `handler` emits `INTERNAL_ERROR`
and the error middleware of server.js emits `SERVER_ERROR`. Covered are `handler` and
its `catch` block, the `/api/products` route, the 404 middleware and the error
middleware of server.js, `fetchProducts` and the record `loadProducts` shows (through
`handleError` or `logSuccess`) in app.js, given that `fetch` does not itself reject
with a `NetworkError`, and the same two functions of app-github-pages.js. -/
theorem emitted_codes_within_program_set (req sreq : Request) (w sw cw ew : World)
    (catchStart : Nat) (catchMessage errMessage errStack missingUrl : String)
    (transport : Transport) (now : Nat) (failureEnabled : Bool) (failureType href : String)
    (page : Page)
    (hgenuine : (fetchWithAbort transport (App.requestUrl failureEnabled failureType) now
      App.REQUEST_TIMEOUT).result.throwsNetworkError = false) :
    ((∃ entry : Obj, (ProductsApi.handler req w).2.console = w.console ++ [entry] ∧
        CodeWithin InSpecCodeSet (entry.get "errorCode")) ∧
      CodeWithin InSpecCodeSet ((ProductsApi.handler req w).1.body.get "errorCode")) ∧
    ((∃ entry : Obj,
        (ProductsApi.handlerCatch catchStart "/api/products" req.method catchMessage cw).2.console
          = cw.console ++ [entry] ∧
        entry.get "errorCode" = JVal.str "INTERNAL_ERROR") ∧
      (ProductsApi.handlerCatch catchStart "/api/products" req.method catchMessage cw).1.body.get
        "errorCode" = JVal.str "INTERNAL_ERROR" ∧
      InProgramCodeSet "INTERNAL_ERROR") ∧
    ((∃ entry : Obj, (Server.apiProducts sreq sw).2.console = sw.console ++ [entry] ∧
        CodeWithin InSpecCodeSet (entry.get "errorCode")) ∧
      CodeWithin InSpecCodeSet ((Server.apiProducts sreq sw).1.body.get "code")) ∧
    CodeWithin InSpecCodeSet ((Server.notFound missingUrl).body.get "code") ∧
    ((∃ entry : Obj, (Server.errorHandler errMessage errStack ew).2.console
          = ew.console ++ [entry] ∧
        entry.get "errorCode" = JVal.str "SERVER_ERROR") ∧
      (Server.errorHandler errMessage errStack ew).1.body.get "code" = JVal.str "SERVER_ERROR" ∧
      InProgramCodeSet "SERVER_ERROR") ∧
    ((∀ error : JsError,
        (App.fetchProducts transport now now failureEnabled failureType).1 = Except.error error →
        ∃ data, error = JsError.networkError data ∧
          CodeWithin InSpecCodeSet (data.get "errorCode")) ∧
      (∀ (label : String) (record : Obj),
        (App.loadProducts transport now failureEnabled failureType page).consoleLog =
          some (label, record) →
        CodeWithin InSpecCodeSet (record.get "errorCode"))) ∧
    ((∀ error : JsError,
        (GhPages.fetchProducts href now now failureEnabled failureType).1 = Except.error error →
        ∃ data, error = JsError.networkError data ∧
          CodeWithin InSpecCodeSet (data.get "errorCode")) ∧
      (∀ (label : String) (record : Obj),
        (GhPages.loadProducts href now failureEnabled failureType page).consoleLog =
          some (label, record) →
        CodeWithin InSpecCodeSet (record.get "errorCode"))) := by
  refine ⟨handler_codes_in_spec_set req w, ?_, server_codes_in_spec_set sreq sw, ?_, ?_,
    ⟨?_, ?_⟩, ⟨?_, ?_⟩⟩
  · simp [ProductsApi.handlerCatch, ProductsApi.logRequest, World.print, Body.get, Obj.get_cons,
      Obj.get_nil, JVal.orElse, JVal.truthy, InProgramCodeSet]
  · exact Or.inr ⟨404, rfl⟩
  · simp [Server.errorHandler, World.print, Body.get, Obj.get_cons, Obj.get_nil,
      InProgramCodeSet]
  · intro error hthrown
    exact app_thrown_code_in_spec_set transport now now failureEnabled failureType error
      hgenuine hthrown
  · intro label record hlog
    exact app_logged_code_in_spec_set transport now failureEnabled failureType page label record
      hgenuine hlog
  · intro error hthrown
    rcases ghpages_thrown_code_in_spec_set href now now failureEnabled failureType with
      ⟨data, hout, hcode⟩ | hout
    · rw [hout] at hthrown
      exact ⟨data, (Except.error.inj hthrown).symm, hcode⟩
    · rw [hout] at hthrown
      cases hthrown
  · intro label record hlog
    exact ghpages_logged_code_in_spec_set href now failureEnabled failureType page label record
      hlog

/-- Witness for `emitted_codes_within_program_set`: a transport that rejects with a
`TypeError` after 20 ms; the 404 middleware then still answers with `NET_404`. -/
theorem emitted_codes_within_program_set_witness :
    CodeWithin InSpecCodeSet ((Server.notFound "/nowhere").body.get "code") :=
  (emitted_codes_within_program_set ⟨"GET", []⟩ ⟨"GET", []⟩ ⟨0, [], []⟩ ⟨0, [], []⟩
    ⟨0, [], []⟩ ⟨0, [], []⟩ 0 "boom" "boom" "" "/nowhere"
    (fun _ _ => ⟨20, FetchResult.rejected (JsError.other "TypeError" "Failed to fetch")⟩)
    0 true "503" "https://example.github.io/store/" ⟨none, false, [], none⟩ rfl).2.2.2.1

/-! ## Shape of the Responder's records and bodies -/

/-- C12: every record `handler` produces with `logRequest` is either a success record or
an error record, never both: in each run `handler` logs exactly one record, and in it
`errorCode` is `null` exactly when `statusOrReason` is a success status in [200,300);
the same holds of the record its `catch` block logs. -/
theorem handler_record_success_xor_error (req : Request) (w cw : World) (catchStart : Nat)
    (catchMessage : String) :
    (∃ entry : Obj, (ProductsApi.handler req w).2.console = w.console ++ [entry] ∧
      (entry.get "errorCode" = JVal.null ↔ isSuccessStatus (entry.get "statusOrReason") = true)) ∧
    (∃ entry : Obj,
      (ProductsApi.handlerCatch catchStart "/api/products" req.method catchMessage cw).2.console
        = cw.console ++ [entry] ∧
      (entry.get "errorCode" = JVal.null ↔ isSuccessStatus (entry.get "statusOrReason") = true)) := by
  constructor
  · by_cases hm : req.method = "GET"
    · by_cases ht : req.query.get "failureMode" = QueryValue.single "timeout"
      · simp [ProductsApi.handler, hm, ht, ProductsApi.logRequest, World.print, World.sleep,
          Obj.get_cons, Obj.get_nil, JVal.orElse, JVal.truthy, isSuccessStatus]
      · by_cases h5 : req.query.get "failureMode" = QueryValue.single "503"
        · simp [ProductsApi.handler, hm, h5, ProductsApi.logRequest, World.print, World.sleep,
            Obj.get_cons, Obj.get_nil, JVal.orElse, JVal.truthy, isSuccessStatus]
        · simp [ProductsApi.handler, hm, ht, h5, ProductsApi.logRequest, World.print,
            World.sleep, Obj.get_cons, Obj.get_nil, JVal.orElse, JVal.truthy, isSuccessStatus]
    · simp [ProductsApi.handler, hm, ProductsApi.logRequest, World.print, Obj.get_cons,
        Obj.get_nil, JVal.orElse, JVal.truthy, isSuccessStatus]
  · simp [ProductsApi.handlerCatch, ProductsApi.logRequest, World.print, Obj.get_cons,
      Obj.get_nil, JVal.orElse, JVal.truthy, isSuccessStatus]

/-- C13, as stated, fails on both Responders: the 503 body of `handler` has `error`,
`errorCode` and `timestamp` but no `retryAfter`; the 503 body of server.js has `error`,
`message`, `code` and `retryAfter` but no `errorCode`, so that property reads as
`undefined`, not as `NET_503`. -/
theorem responder_503_body_fields :
    (ProductsApi.handler ⟨"GET", [("failureMode", QueryValue.single "503")]⟩ ⟨0, [], []⟩).1.body =
      Body.object
        [ ("error", JVal.str "Network failure: 503 Service Unavailable"),
          ("errorCode", JVal.str "NET_503"),
          ("timestamp", JVal.isoTime 200) ] ∧
    (ProductsApi.handler ⟨"GET", [("failureMode", QueryValue.single "503")]⟩
      ⟨0, [], []⟩).1.body.get "retryAfter" = JVal.undefined ∧
    (Server.apiProducts ⟨"GET", [("failure", QueryValue.single "503")]⟩ ⟨0, [], []⟩).1.body.get
      "errorCode" = JVal.undefined ∧
    (Server.apiProducts ⟨"GET", [("failure", QueryValue.single "503")]⟩ ⟨0, [], []⟩).1.body.get
      "errorCode" ≠ JVal.str "NET_503" := by
  decide

/-- C13 (amended): for every GET request in failure mode `503`, the body of the 503
response of `handler` is an object with the properties `error`, `errorCode` (value
`NET_503`) and `timestamp`, and without `retryAfter`; the body of the 503 response of
server.js is an object with the properties `error`, `message`, `code` (value `NET_503`)
and `retryAfter` (value 60), and without `errorCode`. -/
theorem responder_503_body (req sreq : Request) (w sw : World)
    (hm : req.method = "GET")
    (hq : req.query.get "failureMode" = QueryValue.single "503")
    (hs : sreq.query.get "failure" = QueryValue.single "503") :
    (∃ o : Obj, (ProductsApi.handler req w).1.status = 503 ∧
      (ProductsApi.handler req w).1.body = Body.object o ∧
      o.map Prod.fst = ["error", "errorCode", "timestamp"] ∧
      o.get "error" = JVal.str "Network failure: 503 Service Unavailable" ∧
      o.get "errorCode" = JVal.str "NET_503" ∧
      o.has "retryAfter" = false) ∧
    (∃ o : Obj, (Server.apiProducts sreq sw).1.status = 503 ∧
      (Server.apiProducts sreq sw).1.body = Body.object o ∧
      o.map Prod.fst = ["error", "message", "code", "retryAfter"] ∧
      o.get "error" = JVal.str "Service Unavailable" ∧
      o.get "code" = JVal.str "NET_503" ∧
      o.get "retryAfter" = JVal.num 60 ∧
      o.has "errorCode" = false) := by
  constructor
  · simp [ProductsApi.handler, hm, hq, ProductsApi.logRequest, World.print, World.sleep,
      Obj.get_cons, Obj.get_nil, Obj.has_cons, Obj.has_nil]
  · simp [Server.apiProducts, hs, World.print, Obj.get_cons, Obj.get_nil, Obj.has_cons,
      Obj.has_nil]

/-- Witness for `responder_503_body`: GET requests in mode `503` to both Responders. -/
theorem responder_503_body_witness :
    ∃ o : Obj,
      (Server.apiProducts ⟨"GET", [("failure", QueryValue.single "503")]⟩ ⟨0, [], []⟩).1.status
        = 503 ∧
      (Server.apiProducts ⟨"GET", [("failure", QueryValue.single "503")]⟩ ⟨0, [], []⟩).1.body
        = Body.object o ∧
      o.map Prod.fst = ["error", "message", "code", "retryAfter"] ∧
      o.get "error" = JVal.str "Service Unavailable" ∧
      o.get "code" = JVal.str "NET_503" ∧
      o.get "retryAfter" = JVal.num 60 ∧
      o.has "errorCode" = false :=
  (responder_503_body ⟨"GET", [("failureMode", QueryValue.single "503")]⟩
    ⟨"GET", [("failure", QueryValue.single "503")]⟩ ⟨0, [], []⟩ ⟨0, [], []⟩
    rfl (by decide) (by decide)).2

/-! ## Unexpected errors -/

/-- C14, as stated, fails at the empty message: for an error that is not a
`NetworkError` and whose message is the empty string, `handleError` records and shows
`An unexpected error occurred`, not the original (empty) message. -/
theorem handleError_empty_message_replaced :
    (App.handleError (JsError.other "Error" "") 0 ⟨none, true, [], none⟩).consoleLog =
      some ("ERROR LOG",
        [ ("timestamp", JVal.isoTime 0),
          ("errorCode", JVal.str "UNKNOWN_ERROR"),
          ("message", JVal.str "An unexpected error occurred") ]) ∧
    (App.handleError (JsError.other "Error" "") 0 ⟨none, true, [], none⟩).banner =
      some (JVal.str "An unexpected error occurred") ∧
    (App.handleError (JsError.other "Error" "") 0 ⟨none, true, [], none⟩).banner ≠
      some (JVal.str "") ∧
    (GhPages.handleError (JsError.other "Error" "") 0 ⟨none, true, [], none⟩).banner =
      some (JVal.str "An unexpected error occurred") := by
  decide

/-- C14 (amended): for every thrown error that is not a `NetworkError`, `handleError` (in
app.js and in app-github-pages.js) produces a record whose `errorCode` is
`UNKNOWN_ERROR` and shows the record's message in the error banner; for every
non-empty original message that message is the original one, and for the empty
message it is `An unexpected error occurred`. -/
theorem handleError_unknown_error (errorName errorMessage : String) (now : Nat) (page : Page)
    (hne : errorMessage ≠ "") :
    (∃ record : Obj,
      (App.handleError (JsError.other errorName errorMessage) now page).consoleLog =
        some ("ERROR LOG", record) ∧
      record.get "errorCode" = JVal.str "UNKNOWN_ERROR" ∧
      record.get "message" = JVal.str errorMessage ∧
      (App.handleError (JsError.other errorName errorMessage) now page).banner =
        some (JVal.str errorMessage)) ∧
    (∃ record : Obj,
      (GhPages.handleError (JsError.other errorName errorMessage) now page).consoleLog =
        some ("ERROR LOG", record) ∧
      record.get "errorCode" = JVal.str "UNKNOWN_ERROR" ∧
      record.get "message" = JVal.str errorMessage ∧
      (GhPages.handleError (JsError.other errorName errorMessage) now page).banner =
        some (JVal.str errorMessage)) ∧
    (∃ record : Obj,
      (App.handleError (JsError.other errorName "") now page).consoleLog =
        some ("ERROR LOG", record) ∧
      record.get "errorCode" = JVal.str "UNKNOWN_ERROR" ∧
      record.get "message" = JVal.str "An unexpected error occurred" ∧
      (App.handleError (JsError.other errorName "") now page).banner =
        some (JVal.str "An unexpected error occurred")) ∧
    (∃ record : Obj,
      (GhPages.handleError (JsError.other errorName "") now page).consoleLog =
        some ("ERROR LOG", record) ∧
      record.get "errorCode" = JVal.str "UNKNOWN_ERROR" ∧
      record.get "message" = JVal.str "An unexpected error occurred" ∧
      (GhPages.handleError (JsError.other errorName "") now page).banner =
        some (JVal.str "An unexpected error occurred")) := by
  refine ⟨?_, ?_, ?_, ?_⟩
  · simp [App.handleError, App.showErrorBanner, App.logErrorToConsole, Obj.get_cons, Obj.get_nil,
      strOrElse, hne]
  · simp [GhPages.handleError, Obj.get_cons, Obj.get_nil, strOrElse, hne]
  · simp [App.handleError, App.showErrorBanner, App.logErrorToConsole, Obj.get_cons, Obj.get_nil,
      strOrElse]
  · simp [GhPages.handleError, Obj.get_cons, Obj.get_nil, strOrElse]

/-- Witness for `handleError_unknown_error`: a `RangeError` with the message `boom`. -/
theorem handleError_unknown_error_witness :
    ∃ record : Obj,
      (App.handleError (JsError.other "RangeError" "boom") 5 ⟨none, true, [], none⟩).consoleLog =
        some ("ERROR LOG", record) ∧
      record.get "errorCode" = JVal.str "UNKNOWN_ERROR" ∧
      record.get "message" = JVal.str "boom" ∧
      (App.handleError (JsError.other "RangeError" "boom") 5 ⟨none, true, [], none⟩).banner =
        some (JVal.str "boom") :=
  (handleError_unknown_error "RangeError" "boom" 5 ⟨none, true, [], none⟩ (by decide)).1

/-! ## Requester and Responder paired -/

theorem app_url_toggle_off (failureType : String) :
    App.requestUrl false failureType = "http://localhost:3000/api/products" := by
  simp [App.requestUrl, App.API_BASE_URL]

theorem parseQuery_app_off (failureType : String) :
    parseQuery (App.requestUrl false failureType) = [] := by
  rw [app_url_toggle_off]
  decide

theorem parseQuery_app_none :
    parseQuery (App.requestUrl true "none") = [("failure", QueryValue.single "none")] := by
  decide

/-- What `fetch` gets from server.js for the URL app.js builds with the toggle off. -/
theorem server_answer_none (latencyOut latencyBack now : Nat) (failureType : String) :
    transportTo Server.apiProducts latencyOut latencyBack (App.requestUrl false failureType) now =
      ⟨now + latencyOut + latencyBack,
        FetchResult.response 200 "OK" (Except.ok (Body.productArray Server.products))⟩ := by
  unfold transportTo
  rw [parseQuery_app_off]
  rfl

theorem message_503_text :
    "Network failure: " ++ toString 503 ++ " " ++ "Service Unavailable" =
      "Network failure: 503 Service Unavailable" := by
  decide

/-- C15, as stated, fails when the network is slow: over a round trip of 1500 ms +
1500 ms, app.js in mode `none` against server.js gives up with `NET_TIMEOUT` when its
3000 ms abort timer fires and shows no products; over 2425 ms + 2425 ms, pages/index.js
in mode `none` against `handler` (150 ms delay) gives up at 5000 ms with no products. -/
theorem none_mode_slow_round_trip_times_out :
    (thrownData (App.fetchProducts (transportTo Server.apiProducts 1500 1500)
        0 0 false "timeout")).map (fun data => data.get "errorCode") =
      some (JVal.str "NET_TIMEOUT") ∧
    (App.loadProducts (transportTo Server.apiProducts 1500 1500) 0 false "timeout"
        ⟨none, false, [], none⟩).cards = [] ∧
    (App.loadProducts (transportTo Server.apiProducts 1500 1500) 0 false "timeout"
        ⟨none, false, [], none⟩).banner =
      some (JVal.str "Network failure: request timed out (exceeded 3000ms)") ∧
    PagesIndex.fetchProducts (transportTo ProductsApi.handler 2425 2425) "none" 0 =
      { products := JVal.products [], loading := false,
        error := JVal.str "Network failure: request timed out (client timeout: 5000ms)",
        lastFetchTime := JVal.num 5000 } := by
  decide

/-- C15 (amended): a Requester run against its Responder in mode `none`, with a round
trip that fits the Requester's budget, succeeds with the whole fixture and status 200: app.js
against server.js gets the 12 products of server.js, the simulation in
app-github-pages.js gets its 12 mock products, and pages/index.js against
pages/api/products.js gets the 10 products of `handler`, whose response has `count`
equal to the length of `data`; the record `logSuccess` writes has `productCount` equal
to that length and `status` 200. -/
theorem none_mode_yields_fixture (latencyOut latencyBack indexOut indexBack now : Nat)
    (failureType href : String) (page : Page)
    (hlat : latencyOut + latencyBack < App.REQUEST_TIMEOUT)
    (hindex : indexOut + 150 + indexBack < PagesIndex.abortAfterMs) :
    ((App.fetchProducts (transportTo Server.apiProducts latencyOut latencyBack)
          now now false failureType).1 = Except.ok (Body.productArray Server.products) ∧
      Server.products.length = 12 ∧
      (transportTo Server.apiProducts latencyOut latencyBack
          (App.requestUrl false failureType) now).result =
        FetchResult.response 200 "OK" (Except.ok (Body.productArray Server.products)) ∧
      (App.loadProducts (transportTo Server.apiProducts latencyOut latencyBack)
          now false failureType page).cards = Server.products ∧
      (App.loadProducts (transportTo Server.apiProducts latencyOut latencyBack)
          now false failureType page).banner = none ∧
      (∃ record : Obj,
        (App.loadProducts (transportTo Server.apiProducts latencyOut latencyBack)
            now false failureType page).consoleLog = some ("SUCCESS LOG", record) ∧
        record.get "productCount" = JVal.num 12 ∧
        record.get "status" = JVal.num 200)) ∧
    ((GhPages.fetchProducts href now now false failureType).1 =
        Except.ok (Body.productArray GhPages.MOCK_PRODUCTS) ∧
      GhPages.MOCK_PRODUCTS.length = 12 ∧
      (GhPages.loadProducts href now false failureType page).cards = GhPages.MOCK_PRODUCTS ∧
      (GhPages.loadProducts href now false failureType page).banner = none ∧
      (∃ record : Obj,
        (GhPages.loadProducts href now false failureType page).consoleLog =
          some ("SUCCESS LOG", record) ∧
        record.get "productCount" = JVal.num 12 ∧
        record.get "status" = JVal.num 200)) ∧
    ((PagesIndex.fetchProducts (transportTo ProductsApi.handler indexOut indexBack) "none" now).products
        = JVal.products ProductsApi.products ∧
      (PagesIndex.fetchProducts (transportTo ProductsApi.handler indexOut indexBack) "none" now).error
        = JVal.null ∧
      ProductsApi.products.length = 10 ∧
      (∃ (o : Obj) (data : List Product),
        (transportTo ProductsApi.handler indexOut indexBack (PagesIndex.requestUrl "none") now).result
          = FetchResult.response 200 "OK" (Except.ok (Body.object o)) ∧
        o.get "data" = JVal.products data ∧
        o.get "count" = JVal.num data.length)) := by
  have h3 : App.REQUEST_TIMEOUT = 3000 := rfl
  have h5 : PagesIndex.abortAfterMs = 5000 := rfl
  have hc : ¬ (now + App.REQUEST_TIMEOUT ≤ now + latencyOut + latencyBack) := by omega
  have hi : ¬ (now + PagesIndex.abortAfterMs ≤ now + indexOut + 150 + indexBack) := by omega
  have happ : (App.fetchProducts (transportTo Server.apiProducts latencyOut latencyBack)
      now now false failureType) =
        (Except.ok (Body.productArray Server.products), now + latencyOut + latencyBack) := by
    simp [App.fetchProducts, fetchWithAbort, server_answer_none, hc, responseOk]
  have hsim : (GhPages.fetchProducts href now now false failureType) =
      (Except.ok (Body.productArray GhPages.MOCK_PRODUCTS), now + 100) := by
    simp [GhPages.fetchProducts]
  have hans : transportTo ProductsApi.handler indexOut indexBack (PagesIndex.requestUrl "none") now =
      ⟨now + indexOut + 150 + indexBack, FetchResult.response 200 "OK" (Except.ok (Body.object
        [ ("success", JVal.bool true),
          ("count", JVal.num ProductsApi.products.length),
          ("data", JVal.products ProductsApi.products),
          ("timestamp", JVal.isoTime (now + indexOut + 150)) ]))⟩ := by
    unfold transportTo
    rw [parseQuery_index_none]
    rfl
  refine ⟨⟨?_, rfl, ?_, ?_, ?_, ?_⟩, ⟨?_, rfl, ?_, ?_, ?_⟩, ⟨?_, ?_, rfl, ?_⟩⟩
  · rw [happ]
  · rw [server_answer_none]
  · simp [App.loadProducts, happ, App.logSuccess]
  · simp [App.loadProducts, happ, App.logSuccess]
  · simp [App.loadProducts, happ, App.logSuccess, Obj.get_cons, Obj.get_nil]
    rfl
  · rw [hsim]
  · simp [GhPages.loadProducts, hsim, GhPages.logSuccess]
  · simp [GhPages.loadProducts, hsim, GhPages.logSuccess]
  · simp [GhPages.loadProducts, hsim, GhPages.logSuccess, Obj.get_cons, Obj.get_nil]
    rfl
  · simp [PagesIndex.fetchProducts, fetchWithAbort, hans, hi, responseOk, PagesIndex.bodyGet,
      Obj.get_cons, Obj.get_nil]
  · simp [PagesIndex.fetchProducts, fetchWithAbort, hans, hi, responseOk, PagesIndex.bodyGet,
      Obj.get_cons, Obj.get_nil]
  · rw [hans]
    exact ⟨_, ProductsApi.products, rfl, by simp [Obj.get_cons, Obj.get_nil],
      by simp [Obj.get_cons, Obj.get_nil]⟩

/-- Witness for `none_mode_yields_fixture`: round trips of 5 ms + 7 ms and 3 ms + 4 ms. -/
theorem none_mode_yields_fixture_witness :
    (App.fetchProducts (transportTo Server.apiProducts 5 7) 0 0 false "timeout").1 =
      Except.ok (Body.productArray Server.products) ∧
    (PagesIndex.fetchProducts (transportTo ProductsApi.handler 3 4) "none" 0).products =
      JVal.products ProductsApi.products :=
  ⟨(none_mode_yields_fixture 5 7 3 4 0 "timeout" "https://example.github.io/store/"
      ⟨none, false, [], none⟩ (by decide) (by decide)).1.1,
   (none_mode_yields_fixture 5 7 3 4 0 "timeout" "https://example.github.io/store/"
      ⟨none, false, [], none⟩ (by decide) (by decide)).2.2.1⟩

/-- C16: each Requester and its Responder use the same query-parameter name, so the mode
the caller selects is the mode the Responder enacts. app.js builds `?failure=<type>`
with the toggle on and no parameter with the toggle off (whatever the failure type),
and server.js, reading `failure` from that URL, takes its timeout branch (5000 ms delay,
status 200) for `timeout`, its 503 branch for `503` and its happy path otherwise;
pages/index.js builds `?failureMode=<mode>` unless the mode is `none`, and `handler`,
reading `failureMode` from that URL, takes its timeout branch (10000 ms delay, status
504) for `timeout`, its 503 branch (200 ms delay) for `503` and its happy path (150 ms
delay, status 200) for `none`. -/
theorem requester_url_selects_responder_branch (w : World) (failureType : String) :
    ((parseQuery (App.requestUrl true "timeout")).get "failure" = QueryValue.single "timeout" ∧
      (Server.apiProducts ⟨"GET", parseQuery (App.requestUrl true "timeout")⟩ w).1.status = 200 ∧
      (Server.apiProducts ⟨"GET", parseQuery (App.requestUrl true "timeout")⟩ w).2.slept =
        w.slept ++ [5000]) ∧
    ((parseQuery (App.requestUrl true "503")).get "failure" = QueryValue.single "503" ∧
      (Server.apiProducts ⟨"GET", parseQuery (App.requestUrl true "503")⟩ w).1.status = 503 ∧
      (Server.apiProducts ⟨"GET", parseQuery (App.requestUrl true "503")⟩ w).2.slept = w.slept) ∧
    ((parseQuery (App.requestUrl false failureType)).get "failure" = QueryValue.absent ∧
      (Server.apiProducts ⟨"GET", parseQuery (App.requestUrl false failureType)⟩ w).1 =
        ⟨200, Body.productArray Server.products⟩ ∧
      (Server.apiProducts ⟨"GET", parseQuery (App.requestUrl false failureType)⟩ w).2.slept =
        w.slept) ∧
    ((parseQuery (App.requestUrl true "none")).get "failure" = QueryValue.single "none" ∧
      (Server.apiProducts ⟨"GET", parseQuery (App.requestUrl true "none")⟩ w).1 =
        ⟨200, Body.productArray Server.products⟩) ∧
    ((parseQuery (PagesIndex.requestUrl "timeout")).get "failureMode" =
        QueryValue.single "timeout" ∧
      (ProductsApi.handler ⟨"GET", parseQuery (PagesIndex.requestUrl "timeout")⟩ w).1.status
        = 504 ∧
      (ProductsApi.handler ⟨"GET", parseQuery (PagesIndex.requestUrl "timeout")⟩ w).2.slept =
        w.slept ++ [10000]) ∧
    ((parseQuery (PagesIndex.requestUrl "503")).get "failureMode" = QueryValue.single "503" ∧
      (ProductsApi.handler ⟨"GET", parseQuery (PagesIndex.requestUrl "503")⟩ w).1.status = 503 ∧
      (ProductsApi.handler ⟨"GET", parseQuery (PagesIndex.requestUrl "503")⟩ w).2.slept =
        w.slept ++ [200]) ∧
    ((parseQuery (PagesIndex.requestUrl "none")).get "failureMode" = QueryValue.absent ∧
      (ProductsApi.handler ⟨"GET", parseQuery (PagesIndex.requestUrl "none")⟩ w).1.status = 200 ∧
      (ProductsApi.handler ⟨"GET", parseQuery (PagesIndex.requestUrl "none")⟩ w).2.slept =
        w.slept ++ [150]) := by
  rw [parseQuery_app_timeout, parseQuery_app_503, parseQuery_app_off, parseQuery_app_none,
    parseQuery_index_timeout, parseQuery_index_503, parseQuery_index_none]
  refine ⟨⟨by decide, ?_, ?_⟩, ⟨by decide, ?_, ?_⟩, ⟨by decide, ?_, ?_⟩, ⟨by decide, ?_⟩,
    ⟨by decide, ?_, ?_⟩, ⟨by decide, ?_, ?_⟩, ⟨by decide, ?_, ?_⟩⟩
  all_goals
    simp [Server.apiProducts, ProductsApi.handler, ProductsApi.logRequest, Query.get, List.lookup,
      World.print, World.sleep]

/-- C17, as stated, fails when the network is slow: over a round trip of 1500 ms +
1500 ms, with failure type `503`, the simulation throws `NET_503` while app.js against
server.js throws `NET_TIMEOUT`; and with the toggle off the simulation returns its
products while app.js against server.js throws `NET_TIMEOUT`. -/
theorem simulation_differs_on_slow_round_trip :
    (thrownData (GhPages.fetchProducts "https://example.github.io/store/" 0 0 true "503")).map
        (fun data => data.get "errorCode") = some (JVal.str "NET_503") ∧
    (thrownData (App.fetchProducts (transportTo Server.apiProducts 1500 1500)
        0 0 true "503")).map (fun data => data.get "errorCode") =
      some (JVal.str "NET_TIMEOUT") ∧
    observe (GhPages.fetchProducts "https://example.github.io/store/" 0 0 true "503") ≠
      observe (App.fetchProducts (transportTo Server.apiProducts 1500 1500) 0 0 true "503") ∧
    thrownData (GhPages.fetchProducts "https://example.github.io/store/" 0 0 false "503") =
      none ∧
    (thrownData (App.fetchProducts (transportTo Server.apiProducts 1500 1500)
        0 0 false "503")).map (fun data => data.get "errorCode") =
      some (JVal.str "NET_TIMEOUT") := by
  refine ⟨by decide, by decide, ?_, by decide, by decide⟩
  intro h
  have hcode := congrArg
    (fun outcome : Except JsError Body =>
      match outcome with
      | Except.error (JsError.networkError data) => data.get "errorCode"
      | _ => JVal.undefined) h
  revert hcode
  decide

/-- C17 (amended): for failure types `timeout` and `503`, with the toggle on or off, what
`fetchProducts` of app-github-pages.js returns or throws is what `fetchProducts` of
app.js returns or throws against server.js over a round trip shorter than the
threshold, up to the properties `timestamp`, `url` and `latencyMs` of the thrown
record: the same product list on success (`MOCK_PRODUCTS` equals the `products` of
server.js), and the same remaining properties of the record on `503` and on
`timeout`. -/
theorem simulation_matches_http_pair (href : String)
    (simStart simNow start now latencyOut latencyBack : Nat)
    (failureEnabled : Bool) (failureType : String)
    (hty : failureType = "timeout" ∨ failureType = "503")
    (hlat : latencyOut + latencyBack < App.REQUEST_TIMEOUT) :
    observe (GhPages.fetchProducts href simStart simNow failureEnabled failureType) =
      observe (App.fetchProducts (transportTo Server.apiProducts latencyOut latencyBack)
        start now failureEnabled failureType) ∧
    GhPages.MOCK_PRODUCTS = Server.products := by
  refine ⟨?_, by decide⟩
  have h3 : App.REQUEST_TIMEOUT = 3000 := rfl
  cases failureEnabled
  · have hc : ¬ (now + App.REQUEST_TIMEOUT ≤ now + latencyOut + latencyBack) := by omega
    have hm : GhPages.MOCK_PRODUCTS = Server.products := by decide
    simp [GhPages.fetchProducts, App.fetchProducts, fetchWithAbort, server_answer_none, hc,
      responseOk, observe, hm]
  · rcases hty with rfl | rfl
    · have hc : now + App.REQUEST_TIMEOUT ≤ now + latencyOut + 5000 + latencyBack := by omega
      have hg : GhPages.REQUEST_TIMEOUT = App.REQUEST_TIMEOUT := rfl
      simp [GhPages.fetchProducts, App.fetchProducts, fetchWithAbort, server_answer_timeout, hc,
        abortError, JsError.name, observe, stripVolatile, hg]
    · have hc : ¬ (now + App.REQUEST_TIMEOUT ≤ now + latencyOut + latencyBack) := by omega
      simp [GhPages.fetchProducts, App.fetchProducts, fetchWithAbort, server_answer_503, hc,
        responseOk, JsError.name, observe, stripVolatile]
      exact message_503_text.symm

/-- Witness for `simulation_matches_http_pair`: failure type `503` with the toggle on,
over a 5 ms + 7 ms round trip. -/
theorem simulation_matches_http_pair_witness :
    observe (GhPages.fetchProducts "https://example.github.io/store/" 0 0 true "503") =
      observe (App.fetchProducts (transportTo Server.apiProducts 5 7) 0 0 true "503") :=
  (simulation_matches_http_pair "https://example.github.io/store/" 0 0 0 0 5 7 true "503"
    (Or.inr rfl) (by decide)).1

end FailureSim
